import Mathlib

/-!
Verification of the trip-planner core: a shallow embedding, in Lean 4, of the
package-building and scoring slice of the repository
(`planner/services/package_builder.py`, `planner/services/scoring.py`,
`planner/services/destination_service.py` and the money helpers of
`planner/services/fx.py`).

Modelling conventions, used throughout:
* Python `Decimal` and `float` values are modelled as exact rationals (`ℚ`).
  All operations the embedded code performs on them (`+`, `-`, `*`, `/`,
  comparisons, `abs`, `min`/`max`, quantization and rounding) are translated
  literally; `Decimal` context precision and binary-float rounding are the
  only divergence, and none of the verified properties depends on it.
* `datetime` values are modelled as integer timestamps (seconds); only their
  ordering and differences are used by the code.
* Database rows are modelled as Lean structures holding the fields the
  embedded functions read; querysets become input lists given in the
  `order_by` ordering the code requests.
* JSON payload fields read through `dict.get` are modelled as `Option` fields
  (with `none` for an absent, empty or unparsable value, matching the
  defensive `_as_decimal` / `try: float(...)` readers in the source).
* Python truthiness of `or`-chains is modelled explicitly: `0`, `0.0`, `""`,
  `None` and empty collections are falsy.
* External collaborators (the FX-rate table, the zoneinfo database, the
  wall clock, and the haversine distance function of `planner/services/geo.py`)
  are parameters of the embedding; every theorem below holds for all of them.
-/

set_option allowUnsafeReducibility true
set_option maxRecDepth 100000

attribute [semireducible] Rat.add Rat.mul Rat.inv Rat.sub Rat.ofScientific

namespace TripPlanner

/-! ## Money helpers (`planner/services/fx.py`) and Python rounding -/

/-- Round a rational to the nearest integer, ties away from zero: the
`ROUND_HALF_UP` mode of Python `Decimal`. -/
def roundHalfUp (x : ℚ) : ℤ :=
  if 0 ≤ x then Rat.floor (x + 1/2) else -(Rat.floor (-x + 1/2))

/-- `quantize_money` of `planner/services/fx.py`: quantize to cents with
`ROUND_HALF_UP`. -/
def quantize_money (q : ℚ) : ℚ := (roundHalfUp (q * 100) : ℚ) / 100

/-- `to_minor_units` of `planner/services/fx.py`: the integer cent count of
the quantized amount. -/
def to_minor_units (q : ℚ) : ℤ := roundHalfUp (q * 100)

/-- An amount is cent-quantized when it is an integer number of cents. -/
def IsCents (q : ℚ) : Prop := ∃ n : ℤ, q = (n : ℚ) / 100

/-- Round a rational to the nearest integer, ties to even: the semantics of
Python's built-in `round`. -/
def roundHalfEven (x : ℚ) : ℤ :=
  let n := Rat.floor x
  let r := x - (n : ℚ)
  if r < 1/2 then n
  else if 1/2 < r then n + 1
  else if n % 2 = 0 then n else n + 1

/-- Python `round(x, 2)`. -/
def pyRound2 (x : ℚ) : ℚ := (roundHalfEven (x * 100) : ℚ) / 100

/-! ## Python string and truthiness helpers -/

/-- Python `str.lower` (ASCII case mapping, which is all the source feeds it). -/
def pyLower (s : String) : String := ⟨s.data.map Char.toLower⟩

/-- Python `str.upper` (ASCII case mapping, which is all the source feeds it). -/
def pyUpper (s : String) : String := ⟨s.data.map Char.toUpper⟩

/-- Python `str.strip` (whitespace at both ends). -/
def pyStrip (s : String) : String :=
  ⟨((s.data.dropWhile Char.isWhitespace).reverse.dropWhile Char.isWhitespace).reverse⟩

/-- `normalize_iata` of `planner/services/airports.py`:
`(value or "").strip().upper()`. -/
def normalize_iata (s : String) : String := pyUpper (pyStrip s)

/-- `_norm_text` of `planner/services/package_builder.py`:
`str(value or "").strip().lower()`. -/
def norm_text (s : String) : String := pyLower (pyStrip s)

/-- `_norm_link` of `planner/services/package_builder.py`:
`str(value or "").strip()`. -/
def norm_link (s : String) : String := pyStrip s

/-- Python truthiness of an optional number: `None` and `0` are falsy. -/
def truthyQ (v : Option ℚ) : Option ℚ :=
  match v with
  | some x => if x = 0 then none else some x
  | none => none

/-- Python truthiness of an optional string: `None` and `""` are falsy. -/
def truthyS (v : Option String) : Option String :=
  match v with
  | some s => if s = "" then none else some s
  | none => none

/-- First truthy value of a Python `a or b or ... or default` chain over
numbers. -/
def firstTruthyQ (l : List (Option ℚ)) (d : ℚ) : ℚ :=
  match l.filterMap truthyQ with
  | [] => d
  | x :: _ => x

/-- First truthy value of a Python `a or b or ... or default` chain over
strings. -/
def firstTruthyS (l : List (Option String)) (d : String) : String :=
  match l.filterMap truthyS with
  | [] => d
  | x :: _ => x

/-- Python `s or d` for a (non-optional) string field. -/
def pyOrS (s d : String) : String := if s = "" then d else s

/-- Python `n or d` for a (non-optional) numeric field. -/
def pyOrN (n d : ℕ) : ℕ := if n = 0 then d else n

/-- Lexicographic comparison of char lists by code point, as Python compares
strings. -/
def charListLE : List Char → List Char → Bool
  | [], _ => true
  | _ :: _, [] => false
  | a :: as, b :: bs =>
    if a.val < b.val then true
    else if b.val < a.val then false
    else charListLE as bs

/-- Python string `<=` (code-point lexicographic). -/
def strLE (a b : String) : Bool := charListLE a.data b.data

/-- Keep the first occurrence of each element, preserving order (the dedup
loop of `_direct_airports`). -/
def dedupFirst : List String → List String → List String
  | [], _ => []
  | c :: rest, seen =>
    if c ∈ seen then dedupFirst rest seen
    else c :: dedupFirst rest (c :: seen)

/-! ## `planner/services/scoring.py` -/

/-- `PackageScore.breakdown`: the dict built by `score_package`, as a record.
The six weight entries of its `"weights"` sub-dict are carried as fields. -/
structure ScoreBreakdown where
  price_value : ℚ
  convenience : ℚ
  preference_match : ℚ
  seasonal_fit : ℚ
  safety_fallback : ℚ
  freshness : ℚ
  weight_price_value : ℚ
  weight_convenience : ℚ
  weight_preference_match : ℚ
  weight_seasonal_fit : ℚ
  weight_safety_fallback : ℚ
  weight_freshness : ℚ
  explanations : List String
deriving DecidableEq, Inhabited

/-- The `PackageScore` dataclass of `planner/services/scoring.py`. -/
structure PackageScore where
  score : ℚ
  price_score : ℚ
  convenience_score : ℚ
  quality_score : ℚ
  location_score : ℚ
  explanations : List String
  breakdown : ScoreBreakdown
deriving DecidableEq, Inhabited

/-- `_clamp` of `planner/services/scoring.py`. -/
def clamp (value low high : ℚ) : ℚ := max low (min high value)

/-- `_component_price_value` of `planner/services/scoring.py`. -/
def component_price_value (total_minor budget_minor : ℤ) : ℚ × String :=
  if budget_minor ≤ 0 then
    (55, "Budget not provided, using neutral price-value score.")
  else
    let r : ℚ := (total_minor : ℚ) / (max 1 budget_minor : ℤ)
    let score := clamp (100 - |r - 85/100| * 120) 0 100
    let note :=
      if r ≤ 9/10 then "Estimated total is within budget comfort zone."
      else if r ≤ 105/100 then "Estimated total is close to your budget target."
      else "Estimated total exceeds your target budget."
    (pyRound2 score, note)

/-- `_component_preference_match`'s accumulation loop: positive-weight entries
contribute to the total, and to the matched sum when the normalized key is
among the candidate's normalized tags. -/
def preferenceFold (tags : List String) : List (String × Option ℚ) → ℚ × ℚ
  | [] => (0, 0)
  | (key, rawWeight) :: rest =>
    let acc := preferenceFold tags rest
    let weight := rawWeight.getD 0
    if weight ≤ 0 then acc
    else
      let label := pyLower (pyStrip key)
      (acc.1 + weight, acc.2 + if label ∈ tags then weight else 0)

/-- `_component_preference_match` of `planner/services/scoring.py`. A raw
weight of `none` models a value `float(...)` rejects (`TypeError` /
`ValueError`), which the source coerces to `0.0`. -/
def component_preference_match (preference_weights : List (String × Option ℚ))
    (candidate_tags : List String) : ℚ × String :=
  if preference_weights = [] then
    (62, "No explicit preferences supplied, using balanced defaults.")
  else
    let tags := candidate_tags.map (fun t => pyLower (pyStrip t))
    let acc := preferenceFold tags preference_weights
    if acc.1 ≤ 0 then
      (58, "Preference weights normalized to zero; fallback match score applied.")
    else
      let score := clamp (acc.2 / acc.1 * 100) 0 100
      let note :=
        if 80 ≤ score then "Strong match with your preference profile."
        else if 55 ≤ score then "Partial match with your preference profile."
        else "Weak preference match for this destination."
      (pyRound2 score, note)

/-- `_component_seasonal_fit` of `planner/services/scoring.py`. -/
def component_seasonal_fit (season_multiplier : ℚ) : ℚ × String :=
  let score := clamp (96 - |season_multiplier - 1| * 140) 20 100
  let note :=
    if 114/100 ≤ season_multiplier then "Peak-season pressure may raise prices and crowding."
    else if season_multiplier ≤ 92/100 then "Off-season timing likely improves value."
    else "Seasonality is in a moderate band."
  (pyRound2 score, note)

/-- The inline `distance_scores` table of `_component_convenience`
(`dict.get` with default `68.0`). -/
def distanceBandScore (distance_band : String) : ℚ :=
  if distance_band = "short" then 92
  else if distance_band = "medium" then 78
  else if distance_band = "long" then 60
  else if distance_band = "ultra_long" then 45
  else 68

/-- `_component_convenience` of `planner/services/scoring.py`. -/
def component_convenience (distance_band : String) (nonstop_likelihood : ℚ)
    (timezone_delta_hours : ℚ) (travel_time_minutes : ℤ) : ℚ × String :=
  let distance_score := distanceBandScore distance_band
  let nonstop_score := clamp nonstop_likelihood 0 1 * 100
  let timezone_penalty := clamp (timezone_delta_hours * 45/10) 0 38
  let redeye_proxy :=
    if 420 ≤ travel_time_minutes then clamp ((travel_time_minutes - 420 : ℤ) / 18) 0 22
    else 0
  let raw := distance_score * 45/100 + nonstop_score * 35/100 + (100 - timezone_penalty) * 2/10
  let score := clamp (raw - redeye_proxy) 0 100
  let note :=
    if 80 ≤ score then "Convenient route proxy: favorable duration, timezone shift, and nonstop odds."
    else if 60 ≤ score then "Moderate convenience for route timing and duration."
    else "Long-haul or timezone-heavy route may reduce comfort."
  (pyRound2 score, note)

/-- `_component_safety_fallback` of `planner/services/scoring.py`. -/
def component_safety_fallback (data_confidence : ℚ) : ℚ × String :=
  let confidence := clamp data_confidence 0 1
  let score := pyRound2 (45 + confidence * 55)
  let note :=
    if 8/10 ≤ confidence then "High confidence data mix with strong provider coverage."
    else if 55/100 ≤ confidence then "Mixed live/fallback data confidence."
    else "Low confidence: fallback-heavy estimates were used."
  (score, note)

/-- `_component_freshness` of `planner/services/scoring.py`. Timestamps are
seconds; `now` is the wall clock read by `datetime.now`. -/
def component_freshness (freshness_at : Option ℤ) (now : ℤ) : ℚ × String :=
  match freshness_at with
  | none => (42, "Freshness timestamp unavailable; conservative freshness score applied.")
  | some t =>
    let age_hours : ℚ := max 0 ((now - t : ℤ) / 3600)
    if age_hours ≤ 4 then (100, "Price snapshot is very recent.")
    else if age_hours ≤ 24 then (86, "Price snapshot is within the last day.")
    else if age_hours ≤ 72 then (68, "Price snapshot is a few days old.")
    else if age_hours ≤ 168 then (52, "Price snapshot is about a week old.")
    else (34, "Price snapshot is stale and may drift.")

/-- `score_package` of `planner/services/scoring.py`. -/
def score_package (total_minor budget_minor : ℤ)
    (preference_weights : List (String × Option ℚ)) (candidate_tags : List String)
    (season_multiplier : ℚ) (distance_band : String) (nonstop_likelihood : ℚ)
    (freshness_at : Option ℤ) (timezone_delta_hours : ℚ) (travel_time_minutes : ℤ)
    (data_confidence : ℚ) (now : ℤ) : PackageScore :=
  let pv := component_price_value total_minor budget_minor
  let conv := component_convenience distance_band nonstop_likelihood
    timezone_delta_hours travel_time_minutes
  let pm := component_preference_match preference_weights candidate_tags
  let sf := component_seasonal_fit season_multiplier
  let sb := component_safety_fallback data_confidence
  let fr := component_freshness freshness_at now
  let score :=
    pv.1 * 28/100 + conv.1 * 20/100 + pm.1 * 17/100
      + sf.1 * 13/100 + sb.1 * 12/100 + fr.1 * 10/100
  let explanations := [pv.2, conv.2, pm.2, sf.2, sb.2, fr.2]
  { score := pyRound2 score
    price_score := pyRound2 pv.1
    convenience_score := pyRound2 conv.1
    quality_score := pyRound2 pm.1
    location_score := pyRound2 sf.1
    explanations := explanations
    breakdown :=
      { price_value := pyRound2 pv.1
        convenience := pyRound2 conv.1
        preference_match := pyRound2 pm.1
        seasonal_fit := pyRound2 sf.1
        safety_fallback := pyRound2 sb.1
        freshness := pyRound2 fr.1
        weight_price_value := 28/100
        weight_convenience := 20/100
        weight_preference_match := 17/100
        weight_seasonal_fit := 13/100
        weight_safety_fallback := 12/100
        weight_freshness := 10/100
        explanations := explanations } }

/-! ## External collaborators -/

/-- The pure external collaborators the core consumes, as parameters of the
embedding (§6 of the spec): the FX-rate table behind `get_rate`, the zoneinfo
database behind `ZoneInfo(...).utcoffset()` (in hours, `none` for an unknown
name or a `None` offset), the wall clock (seconds), and the great-circle
distance function `haversine_km` of `planner/services/geo.py` (whose module is
outside the embedded slice; every theorem below holds for every such
function). -/
structure Env where
  rate : String → String → ℚ
  tz : String → Option ℚ
  now : ℤ
  hav : ℚ → ℚ → ℚ → ℚ → ℚ

/-- `get_rate` of `planner/services/fx.py`: uppercase both codes, `1.0` for a
same-currency pair, otherwise the stored rate (the stored table itself
defaults to `1.0` for unknown pairs, which is folded into `Env.rate`). -/
def get_rate (env : Env) (base quote : String) : ℚ :=
  if pyUpper base = pyUpper quote then 1 else env.rate (pyUpper base) (pyUpper quote)

/-- `convert_decimal` of `planner/services/fx.py`. -/
def convert_decimal (env : Env) (amount : ℚ) (base quote : String) : ℚ :=
  quantize_money (amount * get_rate env base quote)

/-! ## `planner/services/destination_service.py` -/

/-- `_timezone_offset_hours` (identical in `destination_service.py` and
`package_builder.py`): `0.0` for an empty name, an unknown name, or a `None`
offset. -/
def timezone_offset_hours (tz : String → Option ℚ) (timezone_name : String) : ℚ :=
  if timezone_name = "" then 0
  else
    match tz timezone_name with
    | none => 0
    | some offset => offset

/-- `_rough_travel_time_minutes` of `planner/services/destination_service.py`:
a fixed 360 when either coordinate is missing, otherwise
`int(max(90, 80 + distance/780*60))`. -/
def rough_travel_time_minutes (hav : ℚ → ℚ → ℚ → ℚ → ℚ)
    (origin_coords dest_coords : Option (ℚ × ℚ)) : ℤ :=
  match origin_coords, dest_coords with
  | some oc, some dc =>
    Rat.floor (max 90 (80 + hav oc.1 oc.2 dc.1 dc.2 / 780 * 60))
  | _, _ => 360

/-- Whether `needle` is a prefix of the character list. -/
def hasPrefixChars : List Char → List Char → Bool
  | [], _ => true
  | _ :: _, [] => false
  | a :: as, b :: bs => a = b && hasPrefixChars as bs

/-- Substring test on character lists. -/
def containsChars (needle : List Char) : List Char → Bool
  | [] => needle.isEmpty
  | c :: rest => hasPrefixChars needle (c :: rest) || containsChars needle rest

/-- Python `needle in hay` on strings. -/
def strContains (hay needle : String) : Bool := containsChars needle.data hay.data

/-- `_candidate_score` of `planner/services/destination_service.py`. Returns
`(score, distance_km, duration_minutes)`. -/
def candidate_score (env : Env) (airport_name : String)
    (origin_coords destination_coords : Option (ℚ × ℚ))
    (origin_timezone destination_timezone : String)
    (max_duration_minutes : Option ℤ) : ℚ × ℚ × ℤ :=
  let distance_km : ℚ :=
    match origin_coords, destination_coords with
    | some oc, some dc => env.hav oc.1 oc.2 dc.1 dc.2
    | _, _ => 3200
  let duration_minutes := rough_travel_time_minutes env.hav origin_coords destination_coords
  let rejected : Bool :=
    match max_duration_minutes with
    | some m => (m != 0) && decide (m < duration_minutes)
    | none => false
  if rejected then (-9999, distance_km, duration_minutes)
  else
    let origin_offset := timezone_offset_hours env.tz origin_timezone
    let destination_offset := timezone_offset_hours env.tz destination_timezone
    let timezone_delta := |origin_offset - destination_offset|
    let nameBonus : ℚ := if strContains (pyLower airport_name) "international" then 24 else 0
    let distBonus : ℚ :=
      if distance_km ≤ 1200 then 16
      else if distance_km ≤ 3800 then 26
      else if distance_km ≤ 8500 then 18
      else 6
    let tzBonus : ℚ :=
      if timezone_delta ≤ 2 then 18
      else if timezone_delta ≤ 5 then 11
      else 4
    let durBonus : ℚ :=
      if duration_minutes ≤ 420 then 17
      else if duration_minutes ≤ 720 then 11
      else 5
    (nameBonus + distBonus + tzBonus + durBonus, distance_km, duration_minutes)

/-- The `PlanRequest` fields the embedded slice reads. JSON-backed fields are
carried in their parsed form: `maxDurationMinutes` is the
`flight_filters["max_duration_minutes"]` value after the `int(...)` coercion
(`none` for absent or unparsable); `resolvedDepart`/`resolvedReturn` are the
dates `plan.resolve_dates()` returns, as day numbers (that method mixes
stored fields with the wall clock, and only its result is consumed here). -/
structure PlanRequest where
  originIata : String
  originCode : String
  searchMode : String
  destinationIata : String
  destinationIatas : List String
  destinationCountry : String
  exploreCountryCode : String
  originTimezone : String
  maxDurationMinutes : Option ℤ
  tripLengthMin : ℕ
  tripLengthMax : ℕ
  nightsMin : ℕ
  nightsMax : ℕ
  resolvedDepart : ℤ
  resolvedReturn : ℤ
  searchCurrency : String
  preferenceWeights : List (String × Option ℚ)
deriving DecidableEq, Inhabited

/-- `_direct_airports` of `planner/services/destination_service.py`. -/
def direct_airports (plan : PlanRequest) : List String :=
  let selected :=
    (plan.destinationIatas.map normalize_iata).filter (fun c => c ≠ "")
      ++ (if plan.destinationIata ≠ "" then [normalize_iata plan.destinationIata] else [])
  dedupFirst selected []

/-- An `Airport` row (`planner/models.py`), with the columns
`destination_service.py` reads. -/
structure Airport where
  iata : String
  name : String
  city : String
  country : String
  countryCode : String
  latitude : Option ℚ
  longitude : Option ℚ
  timezone : String
deriving DecidableEq, Inhabited

/-- `get_airport` of `planner/services/airports.py`. -/
def get_airport (db : List Airport) (iata : String) : Option Airport :=
  let code := normalize_iata iata
  if code.length ≠ 3 then none
  else db.find? (fun a => a.iata = code)

/-- Insertion of `x` into a sorted list, before the first element `y` with
`le x y`: the stable-insert step. -/
def orderedInsertB {α : Type} (le : α → α → Bool) (x : α) : List α → List α
  | [] => [x]
  | y :: ys => if le x y then x :: y :: ys else y :: orderedInsertB le x ys

/-- A stable insertion sort; it models Python's (stable) `list.sort` over the
same total key preorder, which produces the identical list. -/
def insertionSortB {α : Type} (le : α → α → Bool) : List α → List α
  | [] => []
  | x :: xs => orderedInsertB le x (insertionSortB le xs)

/-- The `(-score, iata)` sort key of `_explore_airports`, as a `≤` test. -/
def exploreRankLE (p q : ℚ × String) : Bool :=
  if -p.1 < -q.1 then true
  else if -q.1 < -p.1 then false
  else strLE p.2 q.2

/-- `origin = normalize_iata(plan.origin_iata or plan.origin_code)` of
`_explore_airports`. -/
def exploreOriginCode (plan : PlanRequest) : String :=
  normalize_iata (pyOrS plan.originIata plan.originCode)

/-- The origin coordinates `_explore_airports` reads off the origin airport
row. -/
def exploreOriginCoords (db : List Airport) (plan : PlanRequest) : Option (ℚ × ℚ) :=
  match get_airport db (exploreOriginCode plan) with
  | some a =>
    match a.latitude, a.longitude with
    | some la, some lo => some (la, lo)
    | _, _ => none
  | none => none

/-- The origin timezone `_explore_airports` reads off the origin airport
row (empty when the origin is unknown). -/
def exploreOriginTz (db : List Airport) (plan : PlanRequest) : String :=
  match get_airport db (exploreOriginCode plan) with
  | some a => a.timezone
  | none => ""

/-- The country filter of `_explore_airports`: the plan's destination
country unless blank/`XX`/`**`, else the explore-constraints country code. -/
def exploreCountryFilter (plan : PlanRequest) : String :=
  let cf := pyStrip (pyUpper plan.destinationCountry)
  if cf = "" ∨ cf = "XX" ∨ cf = "**" then pyStrip (pyUpper plan.exploreCountryCode)
  else cf

/-- The `queryset` of `_explore_airports`: every airport other than the
origin, restricted to the country filter when one is set. -/
def exploreQueryset (db : List Airport) (plan : PlanRequest) : List Airport :=
  db.filter (fun a => a.iata ≠ exploreOriginCode plan
    ∧ (exploreCountryFilter plan = "" ∨ a.countryCode = exploreCountryFilter plan))

/-- The `ranked` list of `_explore_airports`: each airport of the capped
pool that has coordinates and survives `_candidate_score`, as a
`(score, iata)` pair. -/
def exploreRanked (env : Env) (db : List Airport) (plan : PlanRequest) : List (ℚ × String) :=
  ((exploreQueryset db plan).take 4000).filterMap (fun a =>
    match a.latitude, a.longitude with
    | some la, some lo =>
      let r := candidate_score env a.name (exploreOriginCoords db plan) (some (la, lo))
        (exploreOriginTz db plan) a.timezone plan.maxDurationMinutes
      if r.1 < 0 then none else some (r.1, a.iata)
    | _, _ => none)

/-- `_explore_airports` of `planner/services/destination_service.py`. `db` is
the `Airport` table in the queryset's iteration order; the alphabetical
fallback models `order_by("iata")` by code-point order. -/
def explore_airports (env : Env) (db : List Airport) (plan : PlanRequest)
    (maxItems : ℕ) : List String :=
  if exploreRanked env db plan = [] then
    ((insertionSortB (fun a b => strLE a.iata b.iata) (exploreQueryset db plan)).take maxItems).map
      (fun a => a.iata)
  else
    ((insertionSortB exploreRankLE (exploreRanked env db plan)).take maxItems).map (fun p => p.2)

/-- `build_destination_candidates` of
`planner/services/destination_service.py`, projected to the sequence of
airport codes of the `DestinationCandidate` rows it creates (rank `r` is held
by the code at position `r - 1`; the metadata enrichment of each record does
not affect which codes are kept, nor their order). -/
def build_destination_candidate_codes (env : Env) (db : List Airport)
    (plan : PlanRequest) (maxItems : ℕ) : List String :=
  let airport_codes :=
    if plan.searchMode = "direct" then direct_airports plan
    else explore_airports env db plan maxItems
  if airport_codes = [] then []
  else (airport_codes.take maxItems).filterMap
    (fun code => ((db.filter (fun a => a.iata = code)).head?).map (fun _ => code))

/-! ## `planner/services/package_builder.py`: option rows and payload bags -/

/-- The `raw_payload` keys of a `FlightOption` the builder reads. Numeric
values are carried through the `_as_decimal` / `float(...)` readers, so
`none` stands for an absent, empty or unparsable entry. -/
structure FlightRaw where
  estimatedMin : Option ℚ
  estimatedMax : Option ℚ
  distanceBand : Option String
  nonstopLikelihood : Option ℚ
  seasonMultiplier : Option ℚ
  dataSource : Option String
  stableOfferId : Option String
deriving DecidableEq, Inhabited

/-- A `FlightOption` row (`planner/models.py`), with the columns the builder
reads. `link_confidence` is a non-null float column, read through
`_option_link_confidence`. -/
structure FlightOption where
  id : String
  candidateId : ℕ
  provider : String
  originAirport : String
  destinationAirport : String
  currency : String
  totalPrice : ℚ
  stops : ℕ
  durationMinutes : ℕ
  airlineCodes : List String
  deeplinkUrl : String
  linkConfidence : ℚ
  lastCheckedAt : Option ℤ
  raw : FlightRaw
deriving DecidableEq, Inhabited

/-- The `raw_payload` keys of a `HotelOption` the builder reads. -/
structure HotelRaw where
  nightlyMin : Option ℚ
  nightlyMax : Option ℚ
  totalStayPrice : Option ℚ
  nightlyPrice : Option ℚ
  distanceBand : Option String
  seasonMultiplier : Option ℚ
  dataSource : Option String
  providerPropertyId : Option String
deriving DecidableEq, Inhabited

/-- A `HotelOption` row (`planner/models.py`), with the columns the builder
reads. -/
structure HotelOption where
  id : String
  candidateId : ℕ
  provider : String
  name : String
  providerPropertyId : String
  starRating : ℚ
  guestRating : ℚ
  neighborhood : String
  currency : String
  totalPrice : ℚ
  deeplinkUrl : String
  linkConfidence : ℚ
  lastCheckedAt : Option ℤ
  raw : HotelRaw
deriving DecidableEq, Inhabited

/-- A `TourOption` row (`planner/models.py`), with the columns the builder
reads. -/
structure TourOption where
  id : String
  candidateId : ℕ
  provider : String
  name : String
  externalProductId : String
  currency : String
  totalPrice : ℚ
  deeplinkUrl : String
  linkConfidence : ℚ
  lastCheckedAt : Option ℤ
deriving DecidableEq, Inhabited

/-- A `DestinationCandidate` row as the builder reads it: its id, the row
columns, and the metadata keys consumed by the combination loop. -/
structure Candidate where
  id : ℕ
  airportCode : String
  cityName : String
  timezone : String
  metaTags : List String
  metaNonstop : Option ℚ
  metaDistanceBand : Option String
deriving DecidableEq, Inhabited

/-- `_as_decimal` of `planner/services/package_builder.py`: fallback for an
absent/empty/unparsable value, else the quantized parsed value. -/
def as_decimal (value : Option ℚ) (fallback : ℚ) : ℚ :=
  match value with
  | none => fallback
  | some x => quantize_money x

/-- `_tour_has_explicit_price` of `planner/services/package_builder.py`. -/
def tour_has_explicit_price (tour : TourOption) : Bool := decide (0 < tour.totalPrice)

/-- `_tour_total_in_currency` of `planner/services/package_builder.py` with
its default `allow_estimate=False`, as the builder's combination loop calls
it. -/
def tour_total_in_currency (env : Env) (tour : TourOption) (target_currency : String) : ℚ :=
  if tour_has_explicit_price tour then
    let source_currency := pyUpper (pyOrS tour.currency (pyOrS target_currency "USD"))
    convert_decimal env tour.totalPrice source_currency target_currency
  else 0

/-! ## Tour bundle variants -/

/-- The hand-enumerated candidate bundles of `_tour_bundle_variants`, built
from `top = tours[:4]` by the four `if len(top) >= k` blocks, in order. -/
def bundleCandidates : List TourOption → List (List TourOption)
  | [] => [[]]
  | [a] => [[], [a]]
  | [a, b] => [[], [a], [b], [a, b]]
  | [a, b, c] => [[], [a], [b], [a, b], [c], [a, b, c], [b, c]]
  | a :: b :: c :: d :: _ => [[], [a], [b], [a, b], [c], [a, b, c], [b, c], [c, d]]

/-- The dedup-and-cap loop of `_tour_bundle_variants`: skip bundles longer
than 3, skip a bundle whose tuple of tour ids was seen, stop once
`max_bundles` bundles are kept. -/
def bundleDedupGo (max_bundles : ℕ) :
    List (List TourOption) → List (List String) → ℕ → List (List TourOption)
  | [], _, _ => []
  | bundle :: rest, seen, cnt =>
    if 3 < bundle.length then bundleDedupGo max_bundles rest seen cnt
    else
      let key := bundle.map (fun t => t.id)
      if key ∈ seen then bundleDedupGo max_bundles rest seen cnt
      else
        bundle ::
          (if max_bundles ≤ cnt + 1 then []
           else bundleDedupGo max_bundles rest (key :: seen) (cnt + 1))

/-- `_tour_bundle_variants` of `planner/services/package_builder.py`. -/
def tour_bundle_variants (tours : List TourOption) (max_bundles : ℕ := 5) :
    List (List TourOption) :=
  if tours = [] then [[]]
  else
    let deduped := bundleDedupGo max_bundles (bundleCandidates (tours.take 4)) [] 0
    if deduped = [] then [[]] else deduped

/-! ## Content signatures -/

/-- `_flight_combo_signature`: prices are carried as their cent-quantized
values, which determine the `_decimal_str` strings of the source one-to-one. -/
structure FlightSig where
  provider : String
  origin : String
  destination : String
  price : ℚ
  currency : String
  stops : ℕ
  duration : ℕ
  airlines : List String
  deeplink : String
  stableId : String
deriving DecidableEq, Inhabited

/-- `_hotel_combo_signature`. -/
structure HotelSig where
  provider : String
  name : String
  propertyId : String
  price : ℚ
  currency : String
  starRating : ℚ
  guestRating : ℚ
  neighborhood : String
  deeplink : String
deriving DecidableEq, Inhabited

/-- `_tour_combo_signature`. -/
structure TourSig where
  provider : String
  name : String
  externalProductId : String
  price : ℚ
  currency : String
  deeplink : String
deriving DecidableEq, Inhabited

/-- `_combination_signature`. -/
structure ComboSig where
  airportCode : String
  cityName : String
  flight : FlightSig
  hotel : HotelSig
  tours : List TourSig
  exactFlightTotal : ℚ
  exactHotelTotal : ℚ
  toursTotal : ℚ
  packageTotal : ℚ
deriving DecidableEq, Inhabited

/-- `_flight_combo_signature` of `planner/services/package_builder.py`. -/
def flight_combo_signature (flight : FlightOption) : FlightSig :=
  { provider := norm_text flight.provider
    origin := norm_text flight.originAirport
    destination := norm_text flight.destinationAirport
    price := quantize_money flight.totalPrice
    currency := norm_text flight.currency
    stops := flight.stops
    duration := flight.durationMinutes
    airlines := flight.airlineCodes.map pyUpper
    deeplink := norm_link flight.deeplinkUrl
    stableId := flight.raw.stableOfferId.getD "" }

/-- `_hotel_combo_signature` of `planner/services/package_builder.py`. -/
def hotel_combo_signature (hotel : HotelOption) : HotelSig :=
  { provider := norm_text hotel.provider
    name := norm_text hotel.name
    propertyId := firstTruthyS [some hotel.providerPropertyId, hotel.raw.providerPropertyId] ""
    price := quantize_money hotel.totalPrice
    currency := norm_text hotel.currency
    starRating := pyRound2 hotel.starRating
    guestRating := pyRound2 hotel.guestRating
    neighborhood := norm_text hotel.neighborhood
    deeplink := norm_link hotel.deeplinkUrl }

/-- `_tour_combo_signature` of `planner/services/package_builder.py`. -/
def tour_combo_signature (tour : TourOption) : TourSig :=
  { provider := norm_text tour.provider
    name := norm_text tour.name
    externalProductId := norm_text tour.externalProductId
    price := quantize_money tour.totalPrice
    currency := norm_text tour.currency
    deeplink := norm_link tour.deeplinkUrl }

/-! ## The combination loop of `build_packages_for_plan` -/

/-- One entry of the `combinations` list built by `build_packages_for_plan`
(the dict appended at the end of the tour-bundle loop). The
`score_breakdown` dict is omitted: it repeats the scorer's breakdown plus
display-only fields no verified property reads. -/
structure Combo where
  candidate : Candidate
  flight : FlightOption
  hotel : HotelOption
  selected_tours : List TourOption
  exact_flight_total : ℚ
  exact_hotel_total : ℚ
  tours_total : ℚ
  optional_tours_total : ℚ
  tours_estimated : Bool
  package_total : ℚ
  estimated_flight_min : ℚ
  estimated_flight_max : ℚ
  estimated_hotel_nightly_min : ℚ
  estimated_hotel_nightly_max : ℚ
  estimated_total_min : ℚ
  estimated_total_max : ℚ
  freshness_at : ℤ
  score : ℚ
  price_score : ℚ
  convenience_score : ℚ
  quality_score : ℚ
  location_score : ℚ
  family_friendly_score : ℚ
  explanations : List String
  data_confidence : ℚ
deriving DecidableEq, Inhabited

/-- `_combination_signature` of `planner/services/package_builder.py`. -/
def combination_signature (item : Combo) : ComboSig :=
  { airportCode := norm_text item.candidate.airportCode
    cityName := norm_text item.candidate.cityName
    flight := flight_combo_signature item.flight
    hotel := hotel_combo_signature item.hotel
    tours := item.selected_tours.map tour_combo_signature
    exactFlightTotal := quantize_money item.exact_flight_total
    exactHotelTotal := quantize_money item.exact_hotel_total
    toursTotal := quantize_money item.tours_total
    packageTotal := quantize_money item.package_total }

/-- Minimum of a nonempty timestamp list (`min(freshness_candidates)`), with
`now` for the empty list (`timezone.now()`). -/
def minOrNow (l : List ℤ) (now : ℤ) : ℤ :=
  match l with
  | [] => now
  | x :: xs => xs.foldl min x

/-- The body of the innermost loop of `build_packages_for_plan`
(`package_builder.py`, the `for selected_tours in _tour_bundle_variants`
block): prices, estimate band, freshness, scorer inputs and the score call
for one `candidate × flight × hotel × bundle` combination. -/
def mkCombo (env : Env) (plan : PlanRequest) (candidate : Candidate)
    (flight : FlightOption) (hotel : HotelOption) (selected_tours : List TourOption)
    (target_currency : String) (nights_low nights_high selected_nights : ℕ)
    (budget_minor : ℤ) (origin_tz : String) : Combo :=
  let tags := candidate.metaTags.map pyLower
  let flight_min := as_decimal flight.raw.estimatedMin flight.totalPrice
  let flight_max := as_decimal flight.raw.estimatedMax flight.totalPrice
  let hotel_nightly_min := as_decimal hotel.raw.nightlyMin (hotel.totalPrice / (max nights_low 1 : ℕ))
  let hotel_nightly_max := as_decimal hotel.raw.nightlyMax (hotel.totalPrice / (max nights_high 1 : ℕ))
  let est_flight_min := convert_decimal env flight_min flight.currency target_currency
  let est_flight_max := convert_decimal env flight_max flight.currency target_currency
  let est_hotel_min := convert_decimal env hotel_nightly_min hotel.currency target_currency
  let est_hotel_max := convert_decimal env hotel_nightly_max hotel.currency target_currency
  let optional_tours_total :=
    if selected_tours = [] then 0
    else quantize_money ((selected_tours.map (fun t => tour_total_in_currency env t target_currency)).sum)
  let tours_total : ℚ := 0
  let estimated_tours_used := false
  let exact_flight_total := convert_decimal env flight.totalPrice flight.currency target_currency
  let base_hotel_total :=
    match hotel.raw.totalStayPrice with
    | some v => quantize_money v
    | none =>
      let nightly_exact := as_decimal hotel.raw.nightlyPrice (hotel.totalPrice / (max selected_nights 1 : ℕ))
      quantize_money (nightly_exact * (selected_nights : ℚ))
  let exact_hotel_total := convert_decimal env base_hotel_total hotel.currency target_currency
  let package_total := quantize_money (exact_flight_total + exact_hotel_total)
  let est_total_min0 := quantize_money (est_flight_min + est_hotel_min * (nights_low : ℚ))
  let est_total_max0 := quantize_money (est_flight_max + est_hotel_max * (nights_high : ℚ))
  let est_total_min := if package_total < est_total_min0 then package_total else est_total_min0
  let est_total_max := if est_total_max0 < package_total then package_total else est_total_max0
  let freshness_list :=
    ([flight.lastCheckedAt, hotel.lastCheckedAt].filterMap id)
      ++ selected_tours.filterMap (fun t => t.lastCheckedAt)
  let freshness_at := minOrNow freshness_list env.now
  let distance_band :=
    firstTruthyS [flight.raw.distanceBand, hotel.raw.distanceBand, candidate.metaDistanceBand] "medium"
  let nonstop_likelihood :=
    firstTruthyQ [flight.raw.nonstopLikelihood, candidate.metaNonstop] (55/100)
  let season_multiplier :=
    firstTruthyQ [flight.raw.seasonMultiplier, hotel.raw.seasonMultiplier] 1
  let link_confidences :=
    [flight.linkConfidence, hotel.linkConfidence]
      ++ selected_tours.map (fun t => t.linkConfidence)
  let data_confidence :=
    max (25/100) (min (95/100) (link_confidences.sum / (max 1 link_confidences.length : ℕ)))
  let timezone_delta_hours :=
    |timezone_offset_hours env.tz candidate.timezone - timezone_offset_hours env.tz origin_tz|
  let score := score_package (to_minor_units package_total) budget_minor
    plan.preferenceWeights tags season_multiplier distance_band nonstop_likelihood
    (some freshness_at) timezone_delta_hours (flight.durationMinutes : ℤ)
    data_confidence env.now
  let family_friendly_score := pyRound2 (max 0 (min 100
    (45 + hotel.guestRating * 4 + hotel.starRating * 2 - (flight.stops : ℚ) * 10
      + (if "family" ∈ tags then 8 else 0))))
  { candidate := candidate
    flight := flight
    hotel := hotel
    selected_tours := selected_tours
    exact_flight_total := quantize_money exact_flight_total
    exact_hotel_total := quantize_money exact_hotel_total
    tours_total := tours_total
    optional_tours_total := optional_tours_total
    tours_estimated := estimated_tours_used
    package_total := package_total
    estimated_flight_min := est_flight_min
    estimated_flight_max := est_flight_max
    estimated_hotel_nightly_min := est_hotel_min
    estimated_hotel_nightly_max := est_hotel_max
    estimated_total_min := est_total_min
    estimated_total_max := est_total_max
    freshness_at := freshness_at
    score := score.score
    price_score := score.price_score
    convenience_score := score.convenience_score
    quality_score := score.quality_score
    location_score := score.location_score
    family_friendly_score := family_friendly_score
    explanations := score.explanations
    data_confidence := data_confidence }

/-- The per-candidate part of the combination loop: pools truncated to the
per-city caps, the candidate skipped when it has no flights or no hotels,
then the `flight × hotel × bundle` product. -/
def combos_for_candidate (env : Env) (plan : PlanRequest)
    (flights : List FlightOption) (hotels : List HotelOption) (tours : List TourOption)
    (candidate : Candidate) (target_currency : String)
    (flights_per_city hotels_per_city : ℕ)
    (nights_low nights_high selected_nights : ℕ) (budget_minor : ℤ)
    (origin_tz : String) : List Combo :=
  let fs := (flights.filter (fun f => f.candidateId = candidate.id)).take flights_per_city
  let hs := (hotels.filter (fun h => h.candidateId = candidate.id)).take hotels_per_city
  let ts := tours.filter (fun t => t.candidateId = candidate.id)
  if fs = [] ∨ hs = [] then []
  else
    fs.flatMap (fun f =>
      hs.flatMap (fun h =>
        (tour_bundle_variants ts).map (fun sel =>
          mkCombo env plan candidate f h sel target_currency
            nights_low nights_high selected_nights budget_minor origin_tz)))

/-! ## Sorting, dedup and persistence -/

/-- `_sort_key` of `planner/services/package_builder.py`. Two-component keys
are padded with a constant `0` third component, which leaves every
comparison between keys of the same mode unchanged. -/
def sort_key (sort_mode : String) (item : Combo) : ℚ × ℚ × ℚ :=
  if sort_mode = "budget_first" then (-item.price_score, item.package_total, -item.score)
  else if sort_mode = "cheapest" then (item.package_total, -item.score, 0)
  else if sort_mode = "fastest" then ((item.flight.durationMinutes : ℚ), item.package_total, 0)
  else if sort_mode = "fewest_stops" then
    ((pyOrN item.flight.stops 99 : ℕ), (item.flight.durationMinutes : ℚ), item.package_total)
  else if sort_mode = "family_friendly" then (-item.family_friendly_score, item.package_total, 0)
  else if sort_mode = "best_hotel" then (-item.quality_score, item.package_total, 0)
  else if sort_mode = "best_value" then (-item.price_score, -item.score, item.package_total)
  else (-item.price_score, item.package_total, -item.score)

/-- Lexicographic `≤` on sort-key triples (Python tuple comparison). -/
def tripleLE (a b : ℚ × ℚ × ℚ) : Bool :=
  if a.1 < b.1 then true
  else if b.1 < a.1 then false
  else if a.2.1 < b.2.1 then true
  else if b.2.1 < a.2.1 then false
  else decide (a.2.2 ≤ b.2.2)

/-- The walk of `_dedupe_sorted_combinations`: emit a combination whose
signature is new, stop after `max_packages` kept ones. -/
def dedupeGo (max_packages : ℕ) :
    List Combo → List ComboSig → ℕ → List Combo
  | [], _, _ => []
  | item :: rest, seen, cnt =>
    let s := combination_signature item
    if s ∈ seen then dedupeGo max_packages rest seen cnt
    else
      item ::
        (if max_packages ≤ cnt + 1 then []
         else dedupeGo max_packages rest (s :: seen) (cnt + 1))

/-- `_dedupe_sorted_combinations` of `planner/services/package_builder.py`. -/
def dedupe_sorted_combinations (combinations : List Combo) (max_packages : ℕ) : List Combo :=
  dedupeGo max_packages combinations [] 0

/-- A persisted `PackageOption` row, restricted to the columns the verified
properties read, plus the `warned` flag (whether the strict-sum log line
fired) and the source combination it was created from. -/
structure PackageRecord where
  rank : ℕ
  currency : String
  totalPrice : ℚ
  amountMinor : ℤ
  estimatedTotalMin : ℚ
  estimatedTotalMax : ℚ
  estimatedFlightMin : ℚ
  estimatedFlightMax : ℚ
  estimatedHotelNightlyMin : ℚ
  estimatedHotelNightlyMax : ℚ
  freshnessAt : ℤ
  selectedTourOptionIds : List String
  breakdownFlightTotal : ℚ
  breakdownHotelTotal : ℚ
  breakdownPackageTotal : ℚ
  dataConfidence : ℚ
  score : ℚ
  priceScore : ℚ
  convenienceScore : ℚ
  qualityScore : ℚ
  locationScore : ℚ
  warned : Bool
  combo : Combo
deriving DecidableEq, Inhabited

/-- The persistence body of `build_packages_for_plan` for one surviving
combination at 1-based position `idx`: the strict component sum, the
mismatch warning, and the `PackageOption.objects.create` field values. -/
def mkPackageRecord (idx : ℕ) (item : Combo) (target_currency : String) : PackageRecord :=
  let breakdown_total := quantize_money (item.exact_flight_total + item.exact_hotel_total + item.tours_total)
  let exact_total := breakdown_total
  { rank := idx
    currency := target_currency
    totalPrice := exact_total
    amountMinor := to_minor_units exact_total
    estimatedTotalMin := item.estimated_total_min
    estimatedTotalMax := item.estimated_total_max
    estimatedFlightMin := item.estimated_flight_min
    estimatedFlightMax := item.estimated_flight_max
    estimatedHotelNightlyMin := item.estimated_hotel_nightly_min
    estimatedHotelNightlyMax := item.estimated_hotel_nightly_max
    freshnessAt := item.freshness_at
    selectedTourOptionIds := (item.selected_tours.take 3).map (fun t => t.id)
    breakdownFlightTotal := item.exact_flight_total
    breakdownHotelTotal := item.exact_hotel_total
    breakdownPackageTotal := exact_total
    dataConfidence := item.data_confidence
    score := item.score
    priceScore := item.price_score
    convenienceScore := item.convenience_score
    qualityScore := item.quality_score
    locationScore := item.location_score
    warned := breakdown_total ≠ quantize_money item.package_total
    combo := item }

/-- The `for idx, item in enumerate(selected, start=1)` persistence loop. -/
def persistFrom (idx : ℕ) (target_currency : String) : List Combo → List PackageRecord
  | [] => []
  | item :: rest => mkPackageRecord idx item target_currency :: persistFrom (idx + 1) target_currency rest

/-- `target_currency = (plan.search_currency or "USD").upper()`. -/
def planTargetCurrency (plan : PlanRequest) : String := pyUpper (pyOrS plan.searchCurrency "USD")

/-- `nights_low = max(1, int(plan.trip_length_min or plan.nights_min or 1))`. -/
def planNightsLow (plan : PlanRequest) : ℕ :=
  max 1 (pyOrN plan.tripLengthMin (pyOrN plan.nightsMin 1))

/-- `nights_high = max(nights_low, int(plan.trip_length_max or plan.nights_max
or nights_low))`. -/
def planNightsHigh (plan : PlanRequest) : ℕ :=
  max (planNightsLow plan) (pyOrN plan.tripLengthMax (pyOrN plan.nightsMax (planNightsLow plan)))

/-- `selected_nights`, from the resolved travel dates. -/
def planSelectedNights (plan : PlanRequest) : ℕ :=
  if plan.resolvedDepart < plan.resolvedReturn then
    max 1 (plan.resolvedReturn - plan.resolvedDepart).toNat
  else planNightsLow plan

/-- The full `combinations` list of `build_packages_for_plan`, over all of the
plan's destination candidates. `budget_minor` is the literal `0` of the
source (the plan's budget is never read). -/
def planCombinations (env : Env) (plan : PlanRequest)
    (candidates : List Candidate) (flights : List FlightOption)
    (hotels : List HotelOption) (tours : List TourOption)
    (flights_per_city hotels_per_city : ℕ) : List Combo :=
  candidates.flatMap (fun c =>
    combos_for_candidate env plan flights hotels tours c (planTargetCurrency plan)
      flights_per_city hotels_per_city (planNightsLow plan) (planNightsHigh plan)
      (planSelectedNights plan) 0 plan.originTimezone)

/-- `build_packages_for_plan` of `planner/services/package_builder.py`.
`candidates`, `flights`, `hotels` and `tours` are the plan's rows in the
iteration order of the source's querysets (options ordered by
`(total_price, created_at)`). -/
def build_packages_for_plan (env : Env) (plan : PlanRequest)
    (candidates : List Candidate) (flights : List FlightOption)
    (hotels : List HotelOption) (tours : List TourOption)
    (sort_mode : String := "budget_first") (max_packages : ℕ := 10)
    (flights_per_city : ℕ := 3) (hotels_per_city : ℕ := 3) : List PackageRecord :=
  let combinations := planCombinations env plan candidates flights hotels tours
    flights_per_city hotels_per_city
  if combinations = [] then []
  else
    let sorted := insertionSortB
      (fun a b => tripleLE (sort_key sort_mode a) (sort_key sort_mode b)) combinations
    persistFrom 1 (planTargetCurrency plan) (dedupe_sorted_combinations sorted max_packages)

/-! ## A concrete run, used to witness the theorems above -/

def exEnv : Env :=
  { rate := fun _ _ => 1, tz := fun _ => none, now := 1000000, hav := fun _ _ _ _ => 500 }

def exPlan : PlanRequest :=
  { originIata := "TBS", originCode := "TBS", searchMode := "direct",
    destinationIata := "CDG", destinationIatas := ["CDG"],
    destinationCountry := "FR", exploreCountryCode := "", originTimezone := "Asia/Tbilisi",
    maxDurationMinutes := none, tripLengthMin := 3, tripLengthMax := 5,
    nightsMin := 3, nightsMax := 5, resolvedDepart := 100, resolvedReturn := 104,
    searchCurrency := "USD", preferenceWeights := [] }

def exCand : Candidate :=
  { id := 1, airportCode := "CDG", cityName := "Paris", timezone := "Europe/Paris",
    metaTags := ["culture", "food"], metaNonstop := some (7/10),
    metaDistanceBand := some "medium" }

def exFlight : FlightOption :=
  { id := "f1", candidateId := 1, provider := "duffel", originAirport := "TBS",
    destinationAirport := "CDG", currency := "USD", totalPrice := 220, stops := 0,
    durationMinutes := 300, airlineCodes := ["AF"], deeplinkUrl := "https://x/f1",
    linkConfidence := 7/10, lastCheckedAt := some 990000,
    raw := { estimatedMin := some 180, estimatedMax := some 260,
             distanceBand := some "medium", nonstopLikelihood := some (7/10),
             seasonMultiplier := some 1, dataSource := some "fallback",
             stableOfferId := some "fl-1" } }

def exHotel : HotelOption :=
  { id := "h1", candidateId := 1, provider := "expedia", name := "Hotel One",
    providerPropertyId := "hp-1", starRating := 4, guestRating := 42/5,
    neighborhood := "Center", currency := "USD", totalPrice := 400,
    deeplinkUrl := "https://x/h1", linkConfidence := 6/10, lastCheckedAt := some 980000,
    raw := { nightlyMin := some 80, nightlyMax := some 120, totalStayPrice := some 400,
             nightlyPrice := some 100, distanceBand := none, seasonMultiplier := none,
             dataSource := none, providerPropertyId := some "hp-1" } }

def exTour : TourOption :=
  { id := "t1", candidateId := 1, provider := "tp", name := "Walking tour",
    externalProductId := "tp-1", currency := "USD", totalPrice := 30,
    deeplinkUrl := "https://x/t1", linkConfidence := 5/10, lastCheckedAt := some 970000 }

def exResult : List PackageRecord :=
  build_packages_for_plan exEnv exPlan [exCand] [exFlight] [exHotel] [exTour]
    "budget_first" 10 3 3

def exPackage : PackageRecord := exResult.headI

/-- C7 counterexample: two tours sharing an id defeat the "distinct as
tour-id sets" reading — the dedup key is the ordered id tuple, so `[A]` and
`[A, A]` are both kept although their id sets coincide. -/
def exDupTour : TourOption :=
  { id := "t", candidateId := 1, provider := "tp", name := "Tour", externalProductId := "x",
    currency := "USD", totalPrice := 10, deeplinkUrl := "", linkConfidence := 1/2,
    lastCheckedAt := none }

def exJFK : Airport :=
  { iata := "JFK", name := "John F Kennedy International Airport", city := "New York",
    country := "United States", countryCode := "US", latitude := some (406413/10000),
    longitude := some (-737781/10000), timezone := "America/New_York" }

def exCDG : Airport :=
  { iata := "CDG", name := "Charles de Gaulle Airport", city := "Paris",
    country := "France", countryCode := "FR", latitude := some (490097/10000),
    longitude := some (25479/10000), timezone := "Europe/Paris" }

/-- A direct-mode plan whose extra-destinations list contains the origin —
reachable through the wizard's `destination_iatas_text` field, which is
validated for existence but never compared against the origin. -/
def exDirectPlan : PlanRequest :=
  { originIata := "JFK", originCode := "JFK", searchMode := "direct",
    destinationIata := "CDG", destinationIatas := ["CDG", "JFK"],
    destinationCountry := "FR", exploreCountryCode := "", originTimezone := "America/New_York",
    maxDurationMinutes := none, tripLengthMin := 3, tripLengthMax := 5,
    nightsMin := 3, nightsMax := 5, resolvedDepart := 100, resolvedReturn := 104,
    searchCurrency := "USD", preferenceWeights := [] }

/-- Airports and a plan for the explore-mode witness: with `exExploreEnv`'s
distance function the `ZZZ` airport (latitude 99) is 50000 km away, so its
rough travel time 3926 min exceeds the 200-minute cap, while `AAA` at 500 km
(118 min) survives. -/
def exExploreEnv : Env :=
  { rate := fun _ _ => 1, tz := fun _ => some 0, now := 0,
    hav := fun _ _ la2 _ => if la2 = 99 then 50000 else 500 }

def exFarAirport : Airport :=
  { iata := "ZZZ", name := "Zenith Airport", city := "Zenith", country := "Zed",
    countryCode := "ZZ", latitude := some 99, longitude := some 0, timezone := "Etc/UTC" }

def exNearAirport : Airport :=
  { iata := "AAA", name := "Alpha Airport", city := "Alpha", country := "Alphaland",
    countryCode := "AA", latitude := some 10, longitude := some 10, timezone := "Etc/UTC" }

def exExplorePlan : PlanRequest :=
  { originIata := "JFK", originCode := "JFK", searchMode := "explore",
    destinationIata := "", destinationIatas := [],
    destinationCountry := "", exploreCountryCode := "", originTimezone := "America/New_York",
    maxDurationMinutes := some 200, tripLengthMin := 3, tripLengthMax := 5,
    nightsMin := 3, nightsMax := 5, resolvedDepart := 100, resolvedReturn := 104,
    searchCurrency := "USD", preferenceWeights := [] }

/-- The same plan with a 100-minute cap, which rejects every destination. -/
def exExplorePlanStrict : PlanRequest :=
  { exExplorePlan with maxDurationMinutes := some 100 }


/-! ## Rounding and money lemmas -/

/-- `Rat.floor` agrees with the mathematical floor `⌊·⌋`; `Rat.floor` is kept
in executable definitions because it evaluates by `decide`. -/
theorem ratFloor_eq (q : ℚ) : Rat.floor q = ⌊q⌋ := by
  rw [Rat.floor_def', Rat.floor_def]

theorem floor_intCast_add_half (m : ℤ) : ⌊(m : ℚ) + 1/2⌋ = m := by
  rw [add_comm, Int.floor_add_int]
  norm_num

theorem roundHalfUp_intCast (n : ℤ) : roundHalfUp (n : ℚ) = n := by
  unfold roundHalfUp
  rw [ratFloor_eq, ratFloor_eq]
  by_cases h : (0 : ℚ) ≤ (n : ℚ)
  · rw [if_pos h, floor_intCast_add_half]
  · rw [if_neg h]
    have : (-(n : ℚ)) = ((-n : ℤ) : ℚ) := by push_cast; ring
    rw [this, floor_intCast_add_half]
    ring

theorem quantize_money_cents (n : ℤ) : quantize_money ((n : ℚ) / 100) = (n : ℚ) / 100 := by
  unfold quantize_money
  have h : ((n : ℚ) / 100) * 100 = (n : ℚ) := by
    field_simp
  rw [h, roundHalfUp_intCast]

theorem quantize_money_isCents (q : ℚ) : IsCents (quantize_money q) :=
  ⟨roundHalfUp (q * 100), rfl⟩

theorem IsCents.quantize_fix {q : ℚ} (h : IsCents q) : quantize_money q = q := by
  obtain ⟨n, rfl⟩ := h
  exact quantize_money_cents n

theorem IsCents.add {a b : ℚ} (ha : IsCents a) (hb : IsCents b) : IsCents (a + b) := by
  obtain ⟨n, rfl⟩ := ha
  obtain ⟨m, rfl⟩ := hb
  exact ⟨n + m, by push_cast; ring⟩

theorem quantize_add_cents {a b : ℚ} (ha : IsCents a) (hb : IsCents b) :
    quantize_money (a + b) = a + b :=
  (ha.add hb).quantize_fix

theorem le_roundHalfEven {x : ℚ} {n : ℤ} (h : (n : ℚ) ≤ x) : n ≤ roundHalfEven x := by
  have hf : n ≤ Rat.floor x := by rw [ratFloor_eq]; exact Int.le_floor.mpr h
  unfold roundHalfEven
  dsimp only
  split
  · exact hf
  · split
    · omega
    · split
      · exact hf
      · omega

theorem roundHalfEven_le {x : ℚ} {m : ℤ} (h : x ≤ (m : ℚ)) : roundHalfEven x ≤ m := by
  have hfle : Rat.floor x ≤ m := by
    rw [ratFloor_eq]
    exact Int.floor_le_floor h |>.trans (by rw [Int.floor_intCast])
  unfold roundHalfEven
  dsimp only
  split
  · exact hfle
  · rename_i hlt
    have hne : Rat.floor x ≠ m := by
      intro he
      apply hlt
      have hle := sub_nonpos.mpr (he ▸ h : x ≤ ((Rat.floor x : ℤ) : ℚ))
      linarith
    split
    · omega
    · split
      · exact hfle
      · omega

theorem pyRound2_bounds {x : ℚ} (h0 : 0 ≤ x) (h100 : x ≤ 100) :
    0 ≤ pyRound2 x ∧ pyRound2 x ≤ 100 := by
  unfold pyRound2
  have hlo : (0 : ℤ) ≤ roundHalfEven (x * 100) :=
    le_roundHalfEven (by push_cast; linarith)
  have hhi : roundHalfEven (x * 100) ≤ (10000 : ℤ) :=
    roundHalfEven_le (by push_cast; linarith)
  constructor
  · exact div_nonneg (by exact_mod_cast hlo) (by norm_num)
  · rw [div_le_iff₀ (by norm_num : (0 : ℚ) < 100)]
    exact_mod_cast hhi

theorem dedupFirst_sublist (l seen : List String) : (dedupFirst l seen).Sublist l := by
  induction l generalizing seen with
  | nil => simp [dedupFirst]
  | cons c rest ih =>
    unfold dedupFirst
    split
    · exact (ih seen).trans (List.sublist_cons_self c rest)
    · exact (ih (c :: seen)).cons₂ c

theorem mem_dedupFirst {l seen : List String} {x : String} :
    x ∈ dedupFirst l seen ↔ x ∈ l ∧ x ∉ seen := by
  induction l generalizing seen with
  | nil => simp [dedupFirst]
  | cons c rest ih =>
    unfold dedupFirst
    split
    · rename_i hc
      rw [ih]
      constructor
      · rintro ⟨hm, hs⟩
        exact ⟨List.mem_cons_of_mem c hm, hs⟩
      · rintro ⟨hm, hs⟩
        rcases List.mem_cons.mp hm with rfl | hm'
        · exact absurd hc hs
        · exact ⟨hm', hs⟩
    · rename_i hc
      simp only [List.mem_cons, ih, List.mem_cons]
      constructor
      · rintro (rfl | ⟨hm, hs⟩)
        · exact ⟨Or.inl rfl, hc⟩
        · exact ⟨Or.inr hm, fun h => hs (Or.inr h)⟩
      · rintro ⟨rfl | hm, hs⟩
        · exact Or.inl rfl
        · by_cases hx : x = c
          · exact Or.inl hx
          · exact Or.inr ⟨hm, fun h => hs (Or.resolve_left h hx)⟩

theorem dedupFirst_nodup (l seen : List String) : (dedupFirst l seen).Nodup := by
  induction l generalizing seen with
  | nil => simp [dedupFirst]
  | cons c rest ih =>
    unfold dedupFirst
    split
    · exact ih seen
    · refine List.nodup_cons.mpr ⟨?_, ih (c :: seen)⟩
      intro hmem
      exact (mem_dedupFirst.mp hmem).2 (List.mem_cons_self c _)

theorem clamp_le (value low high : ℚ) (h : low ≤ high) : clamp value low high ≤ high :=
  max_le h (min_le_left _ _)

theorem le_clamp (value low high : ℚ) : low ≤ clamp value low high :=
  le_max_left _ _

theorem convert_decimal_isCents (env : Env) (amount : ℚ) (base quote : String) :
    IsCents (convert_decimal env amount base quote) :=
  quantize_money_isCents _

theorem perm_orderedInsertB {α : Type} (le : α → α → Bool) (x : α) (l : List α) :
    (orderedInsertB le x l).Perm (x :: l) := by
  induction l with
  | nil => simp [orderedInsertB]
  | cons y ys ih =>
    unfold orderedInsertB
    split
    · exact List.Perm.refl _
    · exact ((ih.cons y).trans (List.Perm.swap x y ys))

theorem perm_insertionSortB {α : Type} (le : α → α → Bool) (l : List α) :
    (insertionSortB le l).Perm l := by
  induction l with
  | nil => simp [insertionSortB]
  | cons x xs ih =>
    exact (perm_orderedInsertB le x (insertionSortB le xs)).trans (ih.cons x)

theorem mem_insertionSortB {α : Type} {le : α → α → Bool} {l : List α} {x : α} :
    x ∈ insertionSortB le l ↔ x ∈ l :=
  (perm_insertionSortB le l).mem_iff

/-! ## Structural lemmas about the pipeline -/

theorem mem_persistFrom {n : ℕ} {cur : String} {l : List Combo} {p : PackageRecord}
    (hp : p ∈ persistFrom n cur l) :
    ∃ idx item, item ∈ l ∧ p = mkPackageRecord idx item cur := by
  induction l generalizing n with
  | nil => simp [persistFrom] at hp
  | cons item rest ih =>
    rw [persistFrom] at hp
    rcases List.mem_cons.mp hp with rfl | hmem
    · exact ⟨n, item, List.mem_cons_self _ _, rfl⟩
    · obtain ⟨i, it, hit, he⟩ := ih hmem
      exact ⟨i, it, List.mem_cons_of_mem _ hit, he⟩

theorem persistFrom_map_combo (n : ℕ) (cur : String) (l : List Combo) :
    (persistFrom n cur l).map (fun p => p.combo) = l := by
  induction l generalizing n with
  | nil => simp [persistFrom]
  | cons item rest ih => simp [persistFrom, mkPackageRecord, ih]

theorem persistFrom_map_rank (n : ℕ) (cur : String) (l : List Combo) :
    (persistFrom n cur l).map (fun p => p.rank) = List.range' n l.length := by
  induction l generalizing n with
  | nil => simp [persistFrom]
  | cons item rest ih => simp [persistFrom, mkPackageRecord, ih, List.range']

theorem persistFrom_length (n : ℕ) (cur : String) (l : List Combo) :
    (persistFrom n cur l).length = l.length := by
  induction l generalizing n with
  | nil => simp [persistFrom]
  | cons item rest ih => simp [persistFrom, ih]

theorem persistFrom_map_sig (n : ℕ) (cur : String) (l : List Combo) :
    (persistFrom n cur l).map (fun p => combination_signature p.combo)
      = l.map combination_signature := by
  induction l generalizing n with
  | nil => simp [persistFrom]
  | cons item rest ih => simp [persistFrom, mkPackageRecord, ih]

theorem dedupeGo_subset {K : ℕ} : ∀ {l : List Combo} {seen : List ComboSig} {cnt : ℕ}
    {x : Combo}, x ∈ dedupeGo K l seen cnt → x ∈ l := by
  intro l
  induction l with
  | nil => intro seen cnt x hx; simp [dedupeGo] at hx
  | cons item rest ih =>
    intro seen cnt x hx
    rw [dedupeGo] at hx
    split at hx
    · exact List.mem_cons_of_mem _ (ih hx)
    · rcases List.mem_cons.mp hx with rfl | hmem
      · exact List.mem_cons_self _ _
      · split at hmem
        · simp at hmem
        · exact List.mem_cons_of_mem _ (ih hmem)

theorem dedupeGo_length {K : ℕ} : ∀ {l : List Combo} {seen : List ComboSig} {cnt : ℕ},
    cnt < K → (dedupeGo K l seen cnt).length + cnt ≤ K := by
  intro l
  induction l with
  | nil => intro seen cnt h; simp [dedupeGo]; omega
  | cons item rest ih =>
    intro seen cnt h
    rw [dedupeGo]
    split
    · exact ih h
    · split
      · rename_i hstop
        simp only [List.length_cons, List.length_nil]
        omega
      · rename_i hgo
        have := @ih (combination_signature item :: seen) (cnt + 1) (by omega)
        simp only [List.length_cons]
        omega

theorem dedupeGo_sig_nodup {K : ℕ} : ∀ {l : List Combo} {seen : List ComboSig} {cnt : ℕ},
    ((dedupeGo K l seen cnt).map combination_signature).Nodup
      ∧ ∀ x ∈ dedupeGo K l seen cnt, combination_signature x ∉ seen := by
  intro l
  induction l with
  | nil => intro seen cnt; constructor <;> simp [dedupeGo]
  | cons item rest ih =>
    intro seen cnt
    rw [dedupeGo]
    split
    · exact ih
    · rename_i hnew
      split
      · constructor
        · simp
        · intro x hx
          rcases List.mem_cons.mp hx with rfl | hx'
          · exact hnew
          · simp at hx'
      · obtain ⟨hnd, hseen⟩ := @ih (combination_signature item :: seen) (cnt + 1)
        constructor
        · refine List.nodup_cons.mpr ⟨?_, hnd⟩
          intro hmem
          obtain ⟨y, hy, hye⟩ := List.mem_map.mp hmem
          exact (hseen y hy) (by rw [hye]; exact List.mem_cons_self _ _)
        · intro x hx
          rcases List.mem_cons.mp hx with rfl | hx'
          · exact hnew
          · intro hscontra
            exact (hseen x hx') (List.mem_cons_of_mem _ hscontra)

theorem mem_dedupe_sorted {combinations : List Combo} {K : ℕ} {x : Combo}
    (hx : x ∈ dedupe_sorted_combinations combinations K) : x ∈ combinations :=
  dedupeGo_subset hx

theorem dedupe_sorted_length {combinations : List Combo} {K : ℕ} (hK : 1 ≤ K) :
    (dedupe_sorted_combinations combinations K).length ≤ K := by
  have := @dedupeGo_length K combinations [] 0 (by omega)
  unfold dedupe_sorted_combinations
  omega

theorem dedupe_sorted_sig_nodup (combinations : List Combo) (K : ℕ) :
    ((dedupe_sorted_combinations combinations K).map combination_signature).Nodup :=
  (@dedupeGo_sig_nodup K combinations [] 0).1

theorem mem_combos_for_candidate {env : Env} {plan : PlanRequest}
    {flights : List FlightOption} {hotels : List HotelOption} {tours : List TourOption}
    {candidate : Candidate} {cur : String} {fpc hpc nl nh sn : ℕ} {b : ℤ} {otz : String}
    {x : Combo}
    (hx : x ∈ combos_for_candidate env plan flights hotels tours candidate cur fpc hpc nl nh sn b otz) :
    ∃ f h sel, x = mkCombo env plan candidate f h sel cur nl nh sn b otz := by
  unfold combos_for_candidate at hx
  dsimp only at hx
  split at hx
  · simp at hx
  · obtain ⟨f, _, hx1⟩ := List.mem_flatMap.mp hx
    obtain ⟨h, _, hx2⟩ := List.mem_flatMap.mp hx1
    obtain ⟨sel, _, hx3⟩ := List.mem_map.mp hx2
    exact ⟨f, h, sel, hx3.symm⟩

theorem mem_planCombinations {env : Env} {plan : PlanRequest}
    {candidates : List Candidate} {flights : List FlightOption}
    {hotels : List HotelOption} {tours : List TourOption} {fpc hpc : ℕ} {x : Combo}
    (hx : x ∈ planCombinations env plan candidates flights hotels tours fpc hpc) :
    ∃ cand f h sel, x = mkCombo env plan cand f h sel (planTargetCurrency plan)
      (planNightsLow plan) (planNightsHigh plan) (planSelectedNights plan) 0
      plan.originTimezone := by
  obtain ⟨cand, _, hx1⟩ := List.mem_flatMap.mp hx
  obtain ⟨f, h, sel, he⟩ := mem_combos_for_candidate hx1
  exact ⟨cand, f, h, sel, he⟩

theorem mem_build_packages {env : Env} {plan : PlanRequest}
    {candidates : List Candidate} {flights : List FlightOption}
    {hotels : List HotelOption} {tours : List TourOption}
    {mode : String} {K fpc hpc : ℕ} {p : PackageRecord}
    (hp : p ∈ build_packages_for_plan env plan candidates flights hotels tours mode K fpc hpc) :
    ∃ idx x, x ∈ planCombinations env plan candidates flights hotels tours fpc hpc
      ∧ p = mkPackageRecord idx x (planTargetCurrency plan) := by
  unfold build_packages_for_plan at hp
  dsimp only at hp
  split at hp
  · simp at hp
  · obtain ⟨idx, item, hit, he⟩ := mem_persistFrom hp
    refine ⟨idx, item, ?_, he⟩
    exact mem_insertionSortB.mp (mem_dedupe_sorted hit)

/-! ## Invariants of a single combination -/

theorem mkCombo_selected_tours (env : Env) (plan : PlanRequest) (cand : Candidate)
    (f : FlightOption) (h : HotelOption) (sel : List TourOption) (cur : String)
    (nl nh sn : ℕ) (b : ℤ) (otz : String) :
    (mkCombo env plan cand f h sel cur nl nh sn b otz).selected_tours = sel := rfl

theorem mkCombo_flight (env : Env) (plan : PlanRequest) (cand : Candidate)
    (f : FlightOption) (h : HotelOption) (sel : List TourOption) (cur : String)
    (nl nh sn : ℕ) (b : ℤ) (otz : String) :
    (mkCombo env plan cand f h sel cur nl nh sn b otz).flight = f := rfl

theorem mkCombo_hotel (env : Env) (plan : PlanRequest) (cand : Candidate)
    (f : FlightOption) (h : HotelOption) (sel : List TourOption) (cur : String)
    (nl nh sn : ℕ) (b : ℤ) (otz : String) :
    (mkCombo env plan cand f h sel cur nl nh sn b otz).hotel = h := rfl

theorem mkCombo_tours_total (env : Env) (plan : PlanRequest) (cand : Candidate)
    (f : FlightOption) (h : HotelOption) (sel : List TourOption) (cur : String)
    (nl nh sn : ℕ) (b : ℤ) (otz : String) :
    (mkCombo env plan cand f h sel cur nl nh sn b otz).tours_total = 0 := rfl

theorem mkCombo_exact_flight_isCents (env : Env) (plan : PlanRequest) (cand : Candidate)
    (f : FlightOption) (h : HotelOption) (sel : List TourOption) (cur : String)
    (nl nh sn : ℕ) (b : ℤ) (otz : String) :
    IsCents (mkCombo env plan cand f h sel cur nl nh sn b otz).exact_flight_total := by
  unfold mkCombo
  exact quantize_money_isCents _

theorem mkCombo_exact_hotel_isCents (env : Env) (plan : PlanRequest) (cand : Candidate)
    (f : FlightOption) (h : HotelOption) (sel : List TourOption) (cur : String)
    (nl nh sn : ℕ) (b : ℤ) (otz : String) :
    IsCents (mkCombo env plan cand f h sel cur nl nh sn b otz).exact_hotel_total := by
  unfold mkCombo
  exact quantize_money_isCents _

theorem mkCombo_package_total_eq (env : Env) (plan : PlanRequest) (cand : Candidate)
    (f : FlightOption) (h : HotelOption) (sel : List TourOption) (cur : String)
    (nl nh sn : ℕ) (b : ℤ) (otz : String) :
    (mkCombo env plan cand f h sel cur nl nh sn b otz).package_total
      = (mkCombo env plan cand f h sel cur nl nh sn b otz).exact_flight_total
        + (mkCombo env plan cand f h sel cur nl nh sn b otz).exact_hotel_total := by
  simp only [mkCombo]
  have h1 := convert_decimal_isCents env f.totalPrice f.currency cur
  have h2 := convert_decimal_isCents env
    (match h.raw.totalStayPrice with
     | some v => quantize_money v
     | none => quantize_money
        (as_decimal h.raw.nightlyPrice (h.totalPrice / (max sn 1 : ℕ)) * (sn : ℚ)))
    h.currency cur
  rw [h1.quantize_fix, h2.quantize_fix, quantize_add_cents h1 h2]

theorem mkCombo_band (env : Env) (plan : PlanRequest) (cand : Candidate)
    (f : FlightOption) (h : HotelOption) (sel : List TourOption) (cur : String)
    (nl nh sn : ℕ) (b : ℤ) (otz : String) :
    (mkCombo env plan cand f h sel cur nl nh sn b otz).estimated_total_min
        ≤ (mkCombo env plan cand f h sel cur nl nh sn b otz).package_total
      ∧ (mkCombo env plan cand f h sel cur nl nh sn b otz).package_total
        ≤ (mkCombo env plan cand f h sel cur nl nh sn b otz).estimated_total_max := by
  simp only [mkCombo]
  constructor
  · split_ifs with h1
    · exact le_refl _
    · exact le_of_not_lt h1
  · split_ifs with h1
    · exact le_refl _
    · exact le_of_not_lt h1

theorem mkCombo_freshness_eq (env : Env) (plan : PlanRequest) (cand : Candidate)
    (f : FlightOption) (h : HotelOption) (sel : List TourOption) (cur : String)
    (nl nh sn : ℕ) (b : ℤ) (otz : String) :
    (mkCombo env plan cand f h sel cur nl nh sn b otz).freshness_at
      = minOrNow (([f.lastCheckedAt, h.lastCheckedAt].filterMap id)
          ++ sel.filterMap (fun t => t.lastCheckedAt)) env.now := rfl

theorem IsCents.pyRound2_fix {q : ℚ} (h : IsCents q) : pyRound2 q = q := by
  obtain ⟨n, rfl⟩ := h
  unfold pyRound2 roundHalfEven
  have h100 : ((n : ℚ) / 100) * 100 = (n : ℚ) := by field_simp
  rw [h100]
  have hfl : Rat.floor ((n : ℚ)) = n := by
    rw [ratFloor_eq, Int.floor_intCast]
  rw [hfl]
  have hr : (n : ℚ) - (n : ℚ) = 0 := by ring
  simp only [hr]
  norm_num

theorem pyRound2_isCents (x : ℚ) : IsCents (pyRound2 x) := ⟨roundHalfEven (x * 100), rfl⟩

theorem mkCombo_price_score (env : Env) (plan : PlanRequest) (cand : Candidate)
    (f : FlightOption) (h : HotelOption) (sel : List TourOption) (cur : String)
    (nl nh sn : ℕ) (otz : String) :
    (mkCombo env plan cand f h sel cur nl nh sn 0 otz).price_score = 55 := by
  unfold mkCombo score_package
  dsimp only
  rw [component_price_value]
  norm_num
  exact IsCents.pyRound2_fix ⟨5500, by norm_num⟩

theorem foldl_min_mem (xs : List ℤ) : ∀ x : ℤ, xs.foldl min x ∈ x :: xs := by
  induction xs with
  | nil => intro x; simp
  | cons y ys ih =>
    intro x
    simp only [List.foldl_cons]
    rcases List.mem_cons.mp (ih (min x y)) with he | hm
    · rcases min_choice x y with hxy | hxy
      · rw [he, hxy]; exact List.mem_cons_self _ _
      · rw [he, hxy]; exact List.mem_cons_of_mem _ (List.mem_cons_self _ _)
    · exact List.mem_cons_of_mem _ (List.mem_cons_of_mem _ hm)

theorem foldl_min_le (xs : List ℤ) : ∀ x : ℤ, ∀ u ∈ x :: xs, xs.foldl min x ≤ u := by
  induction xs with
  | nil =>
    intro x u hu
    rcases List.mem_cons.mp hu with he | h
    · subst he; simp
    · simp at h
  | cons y ys ih =>
    intro x u hu
    simp only [List.foldl_cons]
    have hbase : List.foldl min (min x y) ys ≤ min x y :=
      ih (min x y) (min x y) (List.mem_cons_self _ _)
    rcases List.mem_cons.mp hu with he | hm
    · subst he
      exact hbase.trans (min_le_left _ _)
    · rcases List.mem_cons.mp hm with he2 | hm2
      · subst he2
        exact hbase.trans (min_le_right _ _)
      · exact ih (min x y) u (List.mem_cons_of_mem _ hm2)

theorem mkPackageRecord_combo (idx : ℕ) (x : Combo) (cur : String) :
    (mkPackageRecord idx x cur).combo = x := rfl

theorem mkPackageRecord_totalPrice (idx : ℕ) (x : Combo) (cur : String) :
    (mkPackageRecord idx x cur).totalPrice
      = quantize_money (x.exact_flight_total + x.exact_hotel_total + x.tours_total) := rfl

theorem mkPackageRecord_breakdownFlight (idx : ℕ) (x : Combo) (cur : String) :
    (mkPackageRecord idx x cur).breakdownFlightTotal = x.exact_flight_total := rfl

theorem mkPackageRecord_breakdownHotel (idx : ℕ) (x : Combo) (cur : String) :
    (mkPackageRecord idx x cur).breakdownHotelTotal = x.exact_hotel_total := rfl

theorem mkPackageRecord_estMin (idx : ℕ) (x : Combo) (cur : String) :
    (mkPackageRecord idx x cur).estimatedTotalMin = x.estimated_total_min := rfl

theorem mkPackageRecord_estMax (idx : ℕ) (x : Combo) (cur : String) :
    (mkPackageRecord idx x cur).estimatedTotalMax = x.estimated_total_max := rfl

theorem mkPackageRecord_freshnessAt (idx : ℕ) (x : Combo) (cur : String) :
    (mkPackageRecord idx x cur).freshnessAt = x.freshness_at := rfl

theorem mkPackageRecord_priceScore (idx : ℕ) (x : Combo) (cur : String) :
    (mkPackageRecord idx x cur).priceScore = x.price_score := rfl

theorem mkPackageRecord_warned (idx : ℕ) (x : Combo) (cur : String) :
    (mkPackageRecord idx x cur).warned
      = decide (quantize_money (x.exact_flight_total + x.exact_hotel_total + x.tours_total)
          ≠ quantize_money x.package_total) := rfl

theorem sort_key_budget_first (c : Combo) :
    sort_key "budget_first" c = (-c.price_score, c.package_total, -c.score) := rfl

theorem sort_key_best_value (c : Combo) :
    sort_key "best_value" c = (-c.price_score, -c.score, c.package_total) := rfl

/-! ## The claims -/

/-- C1: every package persisted by `build_packages_for_plan` stores a
`total_price` equal to the flight component total plus the hotel component
total exactly, cent-quantized (round-half-up), for every tour bundle size;
it always persists the strict component sum, and the mismatch warning fires
exactly when that strict sum disagrees with the previously computed
`package_total`. -/
theorem claim_C1 (env : Env) (plan : PlanRequest) (candidates : List Candidate)
    (flights : List FlightOption) (hotels : List HotelOption) (tours : List TourOption)
    (mode : String) (K fpc hpc : ℕ) (p : PackageRecord)
    (hp : p ∈ build_packages_for_plan env plan candidates flights hotels tours mode K fpc hpc) :
    p.totalPrice = p.breakdownFlightTotal + p.breakdownHotelTotal
      ∧ IsCents p.totalPrice
      ∧ p.totalPrice = quantize_money
          (p.combo.exact_flight_total + p.combo.exact_hotel_total + p.combo.tours_total)
      ∧ (p.warned = true
          ↔ quantize_money
              (p.combo.exact_flight_total + p.combo.exact_hotel_total + p.combo.tours_total)
            ≠ quantize_money p.combo.package_total) := by
  obtain ⟨idx, x, hx, rfl⟩ := mem_build_packages hp
  obtain ⟨cand, f, h, sel, hxe⟩ := mem_planCombinations hx
  have hcf : IsCents x.exact_flight_total := by
    rw [hxe]; exact mkCombo_exact_flight_isCents env plan cand f h sel _ _ _ _ _ _
  have hch : IsCents x.exact_hotel_total := by
    rw [hxe]; exact mkCombo_exact_hotel_isCents env plan cand f h sel _ _ _ _ _ _
  have htt : x.tours_total = 0 := by
    rw [hxe]; exact mkCombo_tours_total env plan cand f h sel _ _ _ _ _ _
  refine ⟨?_, ?_, rfl, ?_⟩
  · rw [mkPackageRecord_totalPrice, mkPackageRecord_breakdownFlight,
      mkPackageRecord_breakdownHotel, htt, add_zero, quantize_add_cents hcf hch]
  · rw [mkPackageRecord_totalPrice]
    exact quantize_money_isCents _
  · rw [mkPackageRecord_warned, mkPackageRecord_combo, decide_eq_true_eq]

/-- C2: every persisted package's committed total lies inside its estimate
band: `estimated_total_min ≤ total_price ≤ estimated_total_max`. -/
theorem claim_C2 (env : Env) (plan : PlanRequest) (candidates : List Candidate)
    (flights : List FlightOption) (hotels : List HotelOption) (tours : List TourOption)
    (mode : String) (K fpc hpc : ℕ) (p : PackageRecord)
    (hp : p ∈ build_packages_for_plan env plan candidates flights hotels tours mode K fpc hpc) :
    p.estimatedTotalMin ≤ p.totalPrice ∧ p.totalPrice ≤ p.estimatedTotalMax := by
  obtain ⟨idx, x, hx, rfl⟩ := mem_build_packages hp
  obtain ⟨cand, f, h, sel, hxe⟩ := mem_planCombinations hx
  have hcf : IsCents x.exact_flight_total := by
    rw [hxe]; exact mkCombo_exact_flight_isCents env plan cand f h sel _ _ _ _ _ _
  have hch : IsCents x.exact_hotel_total := by
    rw [hxe]; exact mkCombo_exact_hotel_isCents env plan cand f h sel _ _ _ _ _ _
  have htt : x.tours_total = 0 := by
    rw [hxe]; exact mkCombo_tours_total env plan cand f h sel _ _ _ _ _ _
  have hband : x.estimated_total_min ≤ x.package_total
      ∧ x.package_total ≤ x.estimated_total_max := by
    rw [hxe]; exact mkCombo_band env plan cand f h sel _ _ _ _ _ _
  have hpt : x.package_total = x.exact_flight_total + x.exact_hotel_total := by
    rw [hxe]; exact mkCombo_package_total_eq env plan cand f h sel _ _ _ _ _ _
  have htp : (mkPackageRecord idx x (planTargetCurrency plan)).totalPrice = x.package_total := by
    rw [mkPackageRecord_totalPrice, htt, add_zero, quantize_add_cents hcf hch, hpt]
  constructor
  · rw [mkPackageRecord_estMin, htp]
    exact hband.1
  · rw [mkPackageRecord_estMax, htp]
    exact hband.2

/-- C3: `build_packages_for_plan` hard-codes `budget_minor = 0`, so every
persisted package has `price_score = 55.0` exactly, and the primary component
of the `budget_first` and `best_value` sort keys is the constant `-55` for
every combination: ordering under those modes is decided by the
tie-breakers. -/
theorem claim_C3 (env : Env) (plan : PlanRequest) (candidates : List Candidate)
    (flights : List FlightOption) (hotels : List HotelOption) (tours : List TourOption)
    (mode : String) (K fpc hpc : ℕ) (p : PackageRecord)
    (hp : p ∈ build_packages_for_plan env plan candidates flights hotels tours mode K fpc hpc) :
    p.priceScore = 55
      ∧ (sort_key "budget_first" p.combo).1 = -55
      ∧ (sort_key "best_value" p.combo).1 = -55 := by
  obtain ⟨idx, x, hx, rfl⟩ := mem_build_packages hp
  obtain ⟨cand, f, h, sel, hxe⟩ := mem_planCombinations hx
  have hps : x.price_score = 55 := by
    rw [hxe]; exact mkCombo_price_score env plan cand f h sel _ _ _ _ _
  refine ⟨?_, ?_, ?_⟩
  · rw [mkPackageRecord_priceScore, hps]
  · rw [mkPackageRecord_combo, sort_key_budget_first, hps]
  · rw [mkPackageRecord_combo, sort_key_best_value, hps]

/-- C8: with a positive cap `K`, the dedup walk keeps at most `K`
combinations, the persisted packages have pairwise-distinct content
signatures, and ranks are dense and 1-based in persisted order. -/
theorem claim_C8 (env : Env) (plan : PlanRequest) (candidates : List Candidate)
    (flights : List FlightOption) (hotels : List HotelOption) (tours : List TourOption)
    (mode : String) (K fpc hpc : ℕ) (hK : 1 ≤ K) :
    (build_packages_for_plan env plan candidates flights hotels tours mode K fpc hpc).length ≤ K
      ∧ ((build_packages_for_plan env plan candidates flights hotels tours mode K fpc hpc).map
          (fun p => combination_signature p.combo)).Nodup
      ∧ (build_packages_for_plan env plan candidates flights hotels tours mode K fpc hpc).map
          (fun p => p.rank)
        = List.range' 1
            (build_packages_for_plan env plan candidates flights hotels tours mode K fpc hpc).length := by
  unfold build_packages_for_plan
  dsimp only
  split
  · simp
  · refine ⟨?_, ?_, ?_⟩
    · rw [persistFrom_length]
      exact dedupe_sorted_length hK
    · rw [persistFrom_map_sig]
      exact dedupe_sorted_sig_nodup _ K
    · rw [persistFrom_map_rank, persistFrom_length]

/-- C9: a persisted package whose flight, hotel and selected tours all carry
`last_checked_at` timestamps has `freshness_at` equal to the minimum of those
timestamps: it is a member of the timestamp list and a lower bound of it. -/
theorem claim_C9 (env : Env) (plan : PlanRequest) (candidates : List Candidate)
    (flights : List FlightOption) (hotels : List HotelOption) (tours : List TourOption)
    (mode : String) (K fpc hpc : ℕ) (p : PackageRecord) (tf th : ℤ)
    (hp : p ∈ build_packages_for_plan env plan candidates flights hotels tours mode K fpc hpc)
    (hf : p.combo.flight.lastCheckedAt = some tf)
    (hh : p.combo.hotel.lastCheckedAt = some th) :
    p.freshnessAt ∈ tf :: th :: p.combo.selected_tours.filterMap (fun t => t.lastCheckedAt)
      ∧ ∀ u ∈ tf :: th :: p.combo.selected_tours.filterMap (fun t => t.lastCheckedAt),
          p.freshnessAt ≤ u := by
  obtain ⟨idx, x, hx, rfl⟩ := mem_build_packages hp
  obtain ⟨cand, f, h, sel, rfl⟩ := mem_planCombinations hx
  have hcombo : (mkPackageRecord idx (mkCombo env plan cand f h sel (planTargetCurrency plan)
      (planNightsLow plan) (planNightsHigh plan) (planSelectedNights plan) 0
      plan.originTimezone) (planTargetCurrency plan)).combo
      = mkCombo env plan cand f h sel (planTargetCurrency plan)
      (planNightsLow plan) (planNightsHigh plan) (planSelectedNights plan) 0
      plan.originTimezone := rfl
  rw [hcombo] at hf hh ⊢
  rw [mkCombo_flight] at hf
  rw [mkCombo_hotel] at hh
  rw [mkCombo_selected_tours]
  have hfr : (mkPackageRecord idx (mkCombo env plan cand f h sel (planTargetCurrency plan)
      (planNightsLow plan) (planNightsHigh plan) (planSelectedNights plan) 0
      plan.originTimezone) (planTargetCurrency plan)).freshnessAt
      = minOrNow (([f.lastCheckedAt, h.lastCheckedAt].filterMap id)
          ++ sel.filterMap (fun t => t.lastCheckedAt)) env.now := rfl
  rw [hfr, hf, hh]
  have hlist : ([some tf, some th].filterMap (@id (Option ℤ)))
      ++ sel.filterMap (fun t => t.lastCheckedAt)
      = tf :: th :: sel.filterMap (fun t => t.lastCheckedAt) := by
    simp
  rw [hlist, minOrNow]
  exact ⟨foldl_min_mem _ _, foldl_min_le _ _⟩

theorem claim_C1_witness :
    exPackage ∈ exResult
      ∧ (exPackage.totalPrice = exPackage.breakdownFlightTotal + exPackage.breakdownHotelTotal
          ∧ IsCents exPackage.totalPrice
          ∧ exPackage.totalPrice = quantize_money
              (exPackage.combo.exact_flight_total + exPackage.combo.exact_hotel_total
                + exPackage.combo.tours_total)
          ∧ (exPackage.warned = true
              ↔ quantize_money
                  (exPackage.combo.exact_flight_total + exPackage.combo.exact_hotel_total
                    + exPackage.combo.tours_total)
                ≠ quantize_money exPackage.combo.package_total)) :=
  ⟨by decide, claim_C1 exEnv exPlan [exCand] [exFlight] [exHotel] [exTour]
    "budget_first" 10 3 3 exPackage (by decide)⟩

theorem claim_C2_witness :
    exPackage ∈ exResult
      ∧ (exPackage.estimatedTotalMin ≤ exPackage.totalPrice
          ∧ exPackage.totalPrice ≤ exPackage.estimatedTotalMax) :=
  ⟨by decide, claim_C2 exEnv exPlan [exCand] [exFlight] [exHotel] [exTour]
    "budget_first" 10 3 3 exPackage (by decide)⟩

theorem claim_C3_witness :
    exPackage ∈ exResult
      ∧ (exPackage.priceScore = 55
          ∧ (sort_key "budget_first" exPackage.combo).1 = -55
          ∧ (sort_key "best_value" exPackage.combo).1 = -55) :=
  ⟨by decide, claim_C3 exEnv exPlan [exCand] [exFlight] [exHotel] [exTour]
    "budget_first" 10 3 3 exPackage (by decide)⟩

theorem claim_C8_witness :
    1 ≤ 10
      ∧ ((build_packages_for_plan exEnv exPlan [exCand] [exFlight] [exHotel] [exTour]
            "budget_first" 10 3 3).length ≤ 10
          ∧ ((build_packages_for_plan exEnv exPlan [exCand] [exFlight] [exHotel] [exTour]
              "budget_first" 10 3 3).map (fun p => combination_signature p.combo)).Nodup
          ∧ (build_packages_for_plan exEnv exPlan [exCand] [exFlight] [exHotel] [exTour]
              "budget_first" 10 3 3).map (fun p => p.rank)
            = List.range' 1
                (build_packages_for_plan exEnv exPlan [exCand] [exFlight] [exHotel] [exTour]
                  "budget_first" 10 3 3).length) :=
  ⟨by decide, claim_C8 exEnv exPlan [exCand] [exFlight] [exHotel] [exTour]
    "budget_first" 10 3 3 (by decide)⟩

theorem claim_C9_witness :
    (exPackage ∈ exResult
        ∧ exPackage.combo.flight.lastCheckedAt = some 990000
        ∧ exPackage.combo.hotel.lastCheckedAt = some 980000)
      ∧ (exPackage.freshnessAt
            ∈ 990000 :: 980000
              :: exPackage.combo.selected_tours.filterMap (fun t => t.lastCheckedAt)
          ∧ ∀ u ∈ 990000 :: 980000
              :: exPackage.combo.selected_tours.filterMap (fun t => t.lastCheckedAt),
              exPackage.freshnessAt ≤ u) :=
  ⟨⟨by decide, by decide, by decide⟩,
    claim_C9 exEnv exPlan [exCand] [exFlight] [exHotel] [exTour] "budget_first" 10 3 3
      exPackage 990000 980000 (by decide) (by decide) (by decide)⟩

/-! ## Tour-bundle lemmas (claim C7) -/

theorem bundleCandidates_props (top : List TourOption) :
    ∀ b ∈ bundleCandidates top, b.Sublist top ∧ b.length ≤ 3 := by
  match top with
  | [] =>
    intro b hb
    simp only [bundleCandidates, List.mem_singleton] at hb
    subst hb
    exact ⟨List.Sublist.refl _, by simp⟩
  | [a] =>
    intro b hb
    simp only [bundleCandidates, List.mem_cons, List.mem_singleton,
      List.not_mem_nil, or_false] at hb
    rcases hb with rfl | rfl
    · exact ⟨(List.nil_sublist _), by simp⟩
    · exact ⟨List.Sublist.refl _, by simp⟩
  | [a, c] =>
    intro b hb
    simp only [bundleCandidates, List.mem_cons, List.mem_singleton,
      List.not_mem_nil, or_false] at hb
    rcases hb with rfl | rfl | rfl | rfl
    · exact ⟨List.nil_sublist _, by simp⟩
    · exact ⟨List.Sublist.cons₂ a (List.nil_sublist _), by simp⟩
    · exact ⟨List.Sublist.cons a (List.Sublist.refl _), by simp⟩
    · exact ⟨List.Sublist.refl _, by simp⟩
  | [a, c, d] =>
    intro b hb
    simp only [bundleCandidates, List.mem_cons, List.mem_singleton,
      List.not_mem_nil, or_false] at hb
    rcases hb with rfl | rfl | rfl | rfl | rfl | rfl | rfl
    · exact ⟨List.nil_sublist _, by simp⟩
    · exact ⟨List.Sublist.cons₂ a (List.nil_sublist _), by simp⟩
    · exact ⟨List.Sublist.cons a (List.Sublist.cons₂ c (List.nil_sublist _)), by simp⟩
    · exact ⟨List.Sublist.cons₂ a (List.Sublist.cons₂ c (List.nil_sublist _)), by simp⟩
    · exact ⟨List.Sublist.cons a (List.Sublist.cons c (List.Sublist.cons₂ d (List.nil_sublist _))), by simp⟩
    · exact ⟨List.Sublist.refl _, by simp⟩
    · exact ⟨List.Sublist.cons a (List.Sublist.refl _), by simp⟩
  | a :: c :: d :: e :: rest =>
    intro b hb
    simp only [bundleCandidates, List.mem_cons, List.mem_singleton,
      List.not_mem_nil, or_false] at hb
    rcases hb with rfl | rfl | rfl | rfl | rfl | rfl | rfl | rfl
    · exact ⟨List.nil_sublist _, by simp⟩
    · exact ⟨List.Sublist.cons₂ a (List.nil_sublist _), by simp⟩
    · exact ⟨List.Sublist.cons a (List.Sublist.cons₂ c (List.nil_sublist _)), by simp⟩
    · exact ⟨List.Sublist.cons₂ a (List.Sublist.cons₂ c (List.nil_sublist _)), by simp⟩
    · exact ⟨List.Sublist.cons a (List.Sublist.cons c (List.Sublist.cons₂ d (List.nil_sublist _))), by simp⟩
    · exact ⟨List.Sublist.cons₂ a (List.Sublist.cons₂ c (List.Sublist.cons₂ d (List.nil_sublist _))), by simp⟩
    · exact ⟨List.Sublist.cons a (List.Sublist.cons₂ c (List.Sublist.cons₂ d (List.nil_sublist _))), by simp⟩
    · exact ⟨List.Sublist.cons a (List.Sublist.cons c (List.Sublist.cons₂ d
        (List.Sublist.cons₂ e (List.nil_sublist _)))), by simp⟩

theorem bundleCandidates_head (top : List TourOption) :
    ∃ rest, bundleCandidates top = [] :: rest := by
  match top with
  | [] => exact ⟨_, rfl⟩
  | [a] => exact ⟨_, rfl⟩
  | [a, c] => exact ⟨_, rfl⟩
  | [a, c, d] => exact ⟨_, rfl⟩
  | a :: c :: d :: e :: rest => exact ⟨_, rfl⟩

theorem bundleDedupGo_subset {mb : ℕ} : ∀ {l : List (List TourOption)}
    {seen : List (List String)} {cnt : ℕ} {b : List TourOption},
    b ∈ bundleDedupGo mb l seen cnt → b ∈ l := by
  intro l
  induction l with
  | nil => intro seen cnt b hb; simp [bundleDedupGo] at hb
  | cons x rest ih =>
    intro seen cnt b hb
    simp only [bundleDedupGo] at hb
    split at hb
    · exact List.mem_cons_of_mem _ (ih hb)
    · split at hb
      · exact List.mem_cons_of_mem _ (ih hb)
      · rcases List.mem_cons.mp hb with rfl | hmem
        · exact List.mem_cons_self _ _
        · split at hmem
          · simp at hmem
          · exact List.mem_cons_of_mem _ (ih hmem)

theorem bundleDedupGo_length {mb : ℕ} : ∀ {l : List (List TourOption)}
    {seen : List (List String)} {cnt : ℕ}, cnt < mb →
    (bundleDedupGo mb l seen cnt).length + cnt ≤ mb := by
  intro l
  induction l with
  | nil => intro seen cnt h; simp [bundleDedupGo]; omega
  | cons x rest ih =>
    intro seen cnt h
    simp only [bundleDedupGo]
    split
    · exact ih h
    · split
      · exact ih h
      · split
        · simp only [List.length_cons, List.length_nil]
          omega
        · rename_i hgo
          have := @ih ((x.map (fun t => t.id)) :: seen) (cnt + 1) (by omega)
          simp only [List.length_cons]
          omega

theorem bundleDedupGo_short {mb : ℕ} : ∀ {l : List (List TourOption)}
    {seen : List (List String)} {cnt : ℕ} {b : List TourOption},
    b ∈ bundleDedupGo mb l seen cnt → b.length ≤ 3 := by
  intro l
  induction l with
  | nil => intro seen cnt b hb; simp [bundleDedupGo] at hb
  | cons x rest ih =>
    intro seen cnt b hb
    simp only [bundleDedupGo] at hb
    split at hb
    · exact ih hb
    · rename_i hlen
      split at hb
      · exact ih hb
      · rcases List.mem_cons.mp hb with rfl | hmem
        · omega
        · split at hmem
          · simp at hmem
          · exact ih hmem

theorem bundleDedupGo_keys_nodup {mb : ℕ} : ∀ {l : List (List TourOption)}
    {seen : List (List String)} {cnt : ℕ},
    ((bundleDedupGo mb l seen cnt).map (fun b => b.map (fun t => t.id))).Nodup
      ∧ ∀ b ∈ bundleDedupGo mb l seen cnt, (b.map (fun t => t.id)) ∉ seen := by
  intro l
  induction l with
  | nil => intro seen cnt; constructor <;> simp [bundleDedupGo]
  | cons x rest ih =>
    intro seen cnt
    simp only [bundleDedupGo]
    split
    · exact ih
    · split
      · exact ih
      · rename_i hlen hnew
        split
        · constructor
          · simp
          · intro b hb
            rcases List.mem_cons.mp hb with rfl | hb'
            · exact hnew
            · simp at hb'
        · obtain ⟨hnd, hseen⟩ := @ih ((x.map (fun t => t.id)) :: seen) (cnt + 1)
          constructor
          · refine List.nodup_cons.mpr ⟨?_, hnd⟩
            intro hmem
            obtain ⟨y, hy, hye⟩ := List.mem_map.mp hmem
            exact (hseen y hy) (by rw [hye]; exact List.mem_cons_self _ _)
          · intro b hb
            rcases List.mem_cons.mp hb with rfl | hb'
            · exact hnew
            · intro hc
              exact (hseen b hb') (List.mem_cons_of_mem _ hc)

theorem bundleDedupGo_keeps_head {mb : ℕ} (rest : List (List TourOption)) :
    [] ∈ bundleDedupGo mb ([] :: rest) [] 0 := by
  simp [bundleDedupGo]

/-- Two sublists of a duplicate-free list with the same members are equal. -/
theorem sublist_eq_of_mem_iff {l s₁ s₂ : List String} (hnd : l.Nodup)
    (h1 : s₁.Sublist l) (h2 : s₂.Sublist l) (hset : ∀ x, x ∈ s₁ ↔ x ∈ s₂) :
    s₁ = s₂ := by
  induction l generalizing s₁ s₂ with
  | nil =>
    rw [List.sublist_nil.mp h1, List.sublist_nil.mp h2]
  | cons a l ih =>
    have hal : a ∉ l := (List.nodup_cons.mp hnd).1
    have hl : l.Nodup := (List.nodup_cons.mp hnd).2
    rcases List.sublist_cons_iff.mp h1 with h1' | ⟨r₁, rfl, hr₁⟩
    · rcases List.sublist_cons_iff.mp h2 with h2' | ⟨r₂, rfl, hr₂⟩
      · exact ih hl h1' h2' hset
      · exact absurd (h1'.subset ((hset a).mpr (List.mem_cons_self _ _))) hal
    · rcases List.sublist_cons_iff.mp h2 with h2' | ⟨r₂, rfl, hr₂⟩
      · exact absurd (h2'.subset ((hset a).mp (List.mem_cons_self _ _))) hal
      · have har₁ : a ∉ r₁ := fun hc => hal (hr₁.subset hc)
        have har₂ : a ∉ r₂ := fun hc => hal (hr₂.subset hc)
        have hset' : ∀ x, x ∈ r₁ ↔ x ∈ r₂ := by
          intro x
          constructor
          · intro hx
            have hxa : x ≠ a := fun he => har₁ (he ▸ hx)
            rcases List.mem_cons.mp ((hset x).mp (List.mem_cons_of_mem _ hx)) with he | hx'
            · exact absurd he hxa
            · exact hx'
          · intro hx
            have hxa : x ≠ a := fun he => har₂ (he ▸ hx)
            rcases List.mem_cons.mp ((hset x).mpr (List.mem_cons_of_mem _ hx)) with he | hx'
            · exact absurd he hxa
            · exact hx'
        rw [ih hl hr₁ hr₂ hset']

/-- C7: `_tour_bundle_variants` keeps at most 5 bundles, always including the
empty bundle, every bundle has at most 3 tours all drawn from the top 4, and
— provided the top-4 tours carry pairwise-distinct ids, which the database's
primary keys guarantee — the bundles are pairwise distinct as tour-id sets.
(The last conjunct needs the distinct-id hypothesis: tours sharing an id are
deduplicated only by id tuple, see the counterexample.) -/
theorem claim_C7 (tours : List TourOption) :
    (tour_bundle_variants tours).length ≤ 5
      ∧ [] ∈ tour_bundle_variants tours
      ∧ (∀ b ∈ tour_bundle_variants tours, b.length ≤ 3)
      ∧ (∀ b ∈ tour_bundle_variants tours, ∀ t ∈ b, t ∈ tours.take 4)
      ∧ (((tours.take 4).map (fun t => t.id)).Nodup →
          (tour_bundle_variants tours).Pairwise
            (fun b₁ b₂ => (b₁.map (fun t => t.id)).toFinset
              ≠ (b₂.map (fun t => t.id)).toFinset)) := by
  simp only [tour_bundle_variants]
  split
  · refine ⟨by simp, by simp, by simp, ?_, by simp⟩
    intro b hb t ht
    simp only [List.mem_singleton] at hb
    subst hb
    simp at ht
  · rename_i hne
    obtain ⟨rest, hbc⟩ := bundleCandidates_head (tours.take 4)
    split
    · rename_i hdd
      refine ⟨by simp, by simp, by simp, ?_, by simp⟩
      intro b hb t ht
      simp only [List.mem_singleton] at hb
      subst hb
      simp at ht
    · rename_i hdd
      refine ⟨?_, ?_, ?_, ?_, ?_⟩
      · have := @bundleDedupGo_length 5 (bundleCandidates (tours.take 4)) [] 0 (by omega)
        omega
      · rw [hbc]
        exact bundleDedupGo_keeps_head rest
      · intro b hb
        exact bundleDedupGo_short hb
      · intro b hb t ht
        have hbmem := bundleDedupGo_subset hb
        exact ((bundleCandidates_props _ b hbmem).1.subset) ht
      · intro hnd
        have hkeys := (@bundleDedupGo_keys_nodup 5 (bundleCandidates (tours.take 4)) [] 0).1
        have hpw : (bundleDedupGo 5 (bundleCandidates (tours.take 4)) [] 0).Pairwise
            (fun b₁ b₂ => (b₁.map (fun t => t.id)) ≠ (b₂.map (fun t => t.id))) :=
          List.pairwise_map.mp hkeys
        refine hpw.imp_of_mem ?_
        intro b₁ b₂ hb₁ hb₂ hkne hfe
        apply hkne
        have hs₁ := ((bundleCandidates_props _ b₁ (bundleDedupGo_subset hb₁)).1).map
          (fun t => t.id)
        have hs₂ := ((bundleCandidates_props _ b₂ (bundleDedupGo_subset hb₂)).1).map
          (fun t => t.id)
        refine sublist_eq_of_mem_iff hnd hs₁ hs₂ ?_
        intro x
        rw [← List.mem_toFinset, ← @List.mem_toFinset _ _ (b₂.map (fun t => t.id)) x, hfe]

theorem claim_C7_counterexample :
    ¬ (tour_bundle_variants [exDupTour, exDupTour]).Pairwise
        (fun b₁ b₂ => (b₁.map (fun t => t.id)).toFinset
          ≠ (b₂.map (fun t => t.id)).toFinset) := by
  decide

theorem claim_C7_witness :
    (tour_bundle_variants [exTour]).length ≤ 5
      ∧ [] ∈ tour_bundle_variants [exTour]
      ∧ (∀ b ∈ tour_bundle_variants [exTour], b.length ≤ 3)
      ∧ (∀ b ∈ tour_bundle_variants [exTour], ∀ t ∈ b, t ∈ [exTour].take 4)
      ∧ ((([exTour].take 4).map (fun t => t.id)).Nodup
          ∧ (tour_bundle_variants [exTour]).Pairwise
              (fun b₁ b₂ => (b₁.map (fun t => t.id)).toFinset
                ≠ (b₂.map (fun t => t.id)).toFinset)) := by
  obtain ⟨h1, h2, h3, h4, h5⟩ := claim_C7 [exTour]
  exact ⟨h1, h2, h3, h4, by decide, h5 (by decide)⟩

/-! ## Scorer lemmas (claims C5, C10) -/

theorem clamp_bounds (value low high : ℚ) (h0 : low ≤ high) :
    low ≤ clamp value low high ∧ clamp value low high ≤ high :=
  ⟨le_clamp value low high, clamp_le value low high h0⟩

theorem component_price_value_isCents (tm bm : ℤ) :
    IsCents (component_price_value tm bm).1 := by
  unfold component_price_value
  split
  · exact ⟨5500, by norm_num⟩
  · exact pyRound2_isCents _

theorem component_price_value_bounds (tm bm : ℤ) :
    0 ≤ (component_price_value tm bm).1 ∧ (component_price_value tm bm).1 ≤ 100 := by
  unfold component_price_value
  split
  · norm_num
  · obtain ⟨h1, h2⟩ := clamp_bounds (100 - |(tm : ℚ) / ((max 1 bm : ℤ) : ℚ) - 85/100| * 120) 0 100
      (by norm_num)
    exact pyRound2_bounds h1 h2

theorem component_convenience_isCents (band : String) (nl tzd : ℚ) (tt : ℤ) :
    IsCents (component_convenience band nl tzd tt).1 := pyRound2_isCents _

theorem component_convenience_bounds (band : String) (nl tzd : ℚ) (tt : ℤ) :
    0 ≤ (component_convenience band nl tzd tt).1
      ∧ (component_convenience band nl tzd tt).1 ≤ 100 := by
  unfold component_convenience
  obtain ⟨h1, h2⟩ := clamp_bounds
    (distanceBandScore band * 45/100 + clamp nl 0 1 * 100 * 35/100
        + (100 - clamp (tzd * 45/10) 0 38) * 2/10
      - (if 420 ≤ tt then clamp ((tt - 420 : ℤ) / 18) 0 22 else 0)) 0 100 (by norm_num)
  exact pyRound2_bounds h1 h2

theorem component_preference_match_isCents (pw : List (String × Option ℚ)) (tags : List String) :
    IsCents (component_preference_match pw tags).1 := by
  simp only [component_preference_match]
  split
  · exact ⟨6200, by norm_num⟩
  · split
    · exact ⟨5800, by norm_num⟩
    · exact pyRound2_isCents _

theorem component_preference_match_bounds (pw : List (String × Option ℚ)) (tags : List String) :
    0 ≤ (component_preference_match pw tags).1
      ∧ (component_preference_match pw tags).1 ≤ 100 := by
  simp only [component_preference_match]
  split
  · norm_num
  · split
    · norm_num
    · obtain ⟨h1, h2⟩ := clamp_bounds
        ((preferenceFold (List.map (fun t => pyLower (pyStrip t)) tags) pw).2
          / (preferenceFold (List.map (fun t => pyLower (pyStrip t)) tags) pw).1 * 100) 0 100
        (by norm_num)
      exact pyRound2_bounds h1 h2

theorem component_seasonal_fit_isCents (sm : ℚ) :
    IsCents (component_seasonal_fit sm).1 := pyRound2_isCents _

theorem component_seasonal_fit_bounds (sm : ℚ) :
    0 ≤ (component_seasonal_fit sm).1 ∧ (component_seasonal_fit sm).1 ≤ 100 := by
  unfold component_seasonal_fit
  obtain ⟨h1, h2⟩ := clamp_bounds (96 - |sm - 1| * 140) 20 100 (by norm_num)
  exact pyRound2_bounds (by linarith) h2

theorem component_safety_fallback_isCents (dc : ℚ) :
    IsCents (component_safety_fallback dc).1 := pyRound2_isCents _

theorem component_safety_fallback_bounds (dc : ℚ) :
    0 ≤ (component_safety_fallback dc).1 ∧ (component_safety_fallback dc).1 ≤ 100 := by
  unfold component_safety_fallback
  obtain ⟨h1, h2⟩ := clamp_bounds dc 0 1 (by norm_num)
  exact pyRound2_bounds (by linarith) (by linarith)

theorem component_freshness_isCents (fr : Option ℤ) (now : ℤ) :
    IsCents (component_freshness fr now).1 := by
  unfold component_freshness
  rcases fr with _ | t
  · exact ⟨4200, by norm_num⟩
  · dsimp only
    split
    · exact ⟨10000, by norm_num⟩
    · split
      · exact ⟨8600, by norm_num⟩
      · split
        · exact ⟨6800, by norm_num⟩
        · split
          · exact ⟨5200, by norm_num⟩
          · exact ⟨3400, by norm_num⟩

theorem component_freshness_bounds (fr : Option ℤ) (now : ℤ) :
    0 ≤ (component_freshness fr now).1 ∧ (component_freshness fr now).1 ≤ 100 := by
  unfold component_freshness
  rcases fr with _ | t
  · norm_num
  · dsimp only
    split
    · norm_num
    · split
      · norm_num
      · split
        · norm_num
        · split
          · norm_num
          · norm_num

/-- C5: `score_package` returns the weighted composite of the six sub-scores
with the fixed weights 0.28/0.20/0.17/0.13/0.12/0.10, rounded to 2 decimals;
every sub-score carried in the breakdown lies in `[0, 100]`, hence so does
the composite; the breakdown carries the six weights and the six notes as the
ordered explanation list. -/
theorem claim_C5 (tm bm : ℤ) (pw : List (String × Option ℚ)) (tags : List String)
    (sm : ℚ) (band : String) (nl : ℚ) (fr : Option ℤ) (tzd : ℚ) (tt : ℤ) (dc : ℚ)
    (now : ℤ) :
    (score_package tm bm pw tags sm band nl fr tzd tt dc now).score
        = pyRound2
            ((score_package tm bm pw tags sm band nl fr tzd tt dc now).breakdown.price_value * 28/100
              + (score_package tm bm pw tags sm band nl fr tzd tt dc now).breakdown.convenience * 20/100
              + (score_package tm bm pw tags sm band nl fr tzd tt dc now).breakdown.preference_match * 17/100
              + (score_package tm bm pw tags sm band nl fr tzd tt dc now).breakdown.seasonal_fit * 13/100
              + (score_package tm bm pw tags sm band nl fr tzd tt dc now).breakdown.safety_fallback * 12/100
              + (score_package tm bm pw tags sm band nl fr tzd tt dc now).breakdown.freshness * 10/100)
      ∧ (∀ v ∈ [(score_package tm bm pw tags sm band nl fr tzd tt dc now).breakdown.price_value,
            (score_package tm bm pw tags sm band nl fr tzd tt dc now).breakdown.convenience,
            (score_package tm bm pw tags sm band nl fr tzd tt dc now).breakdown.preference_match,
            (score_package tm bm pw tags sm band nl fr tzd tt dc now).breakdown.seasonal_fit,
            (score_package tm bm pw tags sm band nl fr tzd tt dc now).breakdown.safety_fallback,
            (score_package tm bm pw tags sm band nl fr tzd tt dc now).breakdown.freshness],
          0 ≤ v ∧ v ≤ 100)
      ∧ (0 ≤ (score_package tm bm pw tags sm band nl fr tzd tt dc now).score
          ∧ (score_package tm bm pw tags sm band nl fr tzd tt dc now).score ≤ 100)
      ∧ ((score_package tm bm pw tags sm band nl fr tzd tt dc now).breakdown.weight_price_value = 28/100
          ∧ (score_package tm bm pw tags sm band nl fr tzd tt dc now).breakdown.weight_convenience = 20/100
          ∧ (score_package tm bm pw tags sm band nl fr tzd tt dc now).breakdown.weight_preference_match = 17/100
          ∧ (score_package tm bm pw tags sm band nl fr tzd tt dc now).breakdown.weight_seasonal_fit = 13/100
          ∧ (score_package tm bm pw tags sm band nl fr tzd tt dc now).breakdown.weight_safety_fallback = 12/100
          ∧ (score_package tm bm pw tags sm band nl fr tzd tt dc now).breakdown.weight_freshness = 10/100)
      ∧ (score_package tm bm pw tags sm band nl fr tzd tt dc now).breakdown.explanations
          = (score_package tm bm pw tags sm band nl fr tzd tt dc now).explanations
      ∧ (score_package tm bm pw tags sm band nl fr tzd tt dc now).explanations
          = [(component_price_value tm bm).2,
             (component_convenience band nl tzd tt).2,
             (component_preference_match pw tags).2,
             (component_seasonal_fit sm).2,
             (component_safety_fallback dc).2,
             (component_freshness fr now).2] := by
  have hpv := component_price_value_isCents tm bm
  have hcv := component_convenience_isCents band nl tzd tt
  have hpm := component_preference_match_isCents pw tags
  have hsf := component_seasonal_fit_isCents sm
  have hsb := component_safety_fallback_isCents dc
  have hfr := component_freshness_isCents fr now
  have bpv := component_price_value_bounds tm bm
  have bcv := component_convenience_bounds band nl tzd tt
  have bpm := component_preference_match_bounds pw tags
  have bsf := component_seasonal_fit_bounds sm
  have bsb := component_safety_fallback_bounds dc
  have bfr := component_freshness_bounds fr now
  refine ⟨?_, ?_, ?_, by exact ⟨rfl, rfl, rfl, rfl, rfl, rfl⟩, rfl, rfl⟩
  · show pyRound2 _ = pyRound2 _
    rw [show (score_package tm bm pw tags sm band nl fr tzd tt dc now).breakdown.price_value
        = pyRound2 (component_price_value tm bm).1 from rfl,
      show (score_package tm bm pw tags sm band nl fr tzd tt dc now).breakdown.convenience
        = pyRound2 (component_convenience band nl tzd tt).1 from rfl,
      show (score_package tm bm pw tags sm band nl fr tzd tt dc now).breakdown.preference_match
        = pyRound2 (component_preference_match pw tags).1 from rfl,
      show (score_package tm bm pw tags sm band nl fr tzd tt dc now).breakdown.seasonal_fit
        = pyRound2 (component_seasonal_fit sm).1 from rfl,
      show (score_package tm bm pw tags sm band nl fr tzd tt dc now).breakdown.safety_fallback
        = pyRound2 (component_safety_fallback dc).1 from rfl,
      show (score_package tm bm pw tags sm band nl fr tzd tt dc now).breakdown.freshness
        = pyRound2 (component_freshness fr now).1 from rfl,
      hpv.pyRound2_fix, hcv.pyRound2_fix, hpm.pyRound2_fix, hsf.pyRound2_fix,
      hsb.pyRound2_fix, hfr.pyRound2_fix]
  · intro v hv
    simp only [List.mem_cons, List.not_mem_nil, or_false] at hv
    rcases hv with rfl | rfl | rfl | rfl | rfl | rfl
    · show 0 ≤ pyRound2 _ ∧ pyRound2 _ ≤ 100
      exact pyRound2_bounds bpv.1 bpv.2
    · show 0 ≤ pyRound2 _ ∧ pyRound2 _ ≤ 100
      exact pyRound2_bounds bcv.1 bcv.2
    · show 0 ≤ pyRound2 _ ∧ pyRound2 _ ≤ 100
      exact pyRound2_bounds bpm.1 bpm.2
    · show 0 ≤ pyRound2 _ ∧ pyRound2 _ ≤ 100
      exact pyRound2_bounds bsf.1 bsf.2
    · show 0 ≤ pyRound2 _ ∧ pyRound2 _ ≤ 100
      exact pyRound2_bounds bsb.1 bsb.2
    · show 0 ≤ pyRound2 _ ∧ pyRound2 _ ≤ 100
      exact pyRound2_bounds bfr.1 bfr.2
  · show 0 ≤ pyRound2 _ ∧ pyRound2 _ ≤ 100
    refine pyRound2_bounds ?_ ?_
    · nlinarith [bpv.1, bcv.1, bpm.1, bsf.1, bsb.1, bfr.1]
    · nlinarith [bpv.2, bcv.2, bpm.2, bsf.2, bsb.2, bfr.2]

/-- C10: no exception escapes the scorer or the geo helpers; every degenerate
input named by the spec is replaced by its documented defensive default: an
empty or unknown timezone name gives offset 0, missing coordinates give the
fixed 360-minute travel time, a missing freshness timestamp gives the 42.0
score, a non-numeric preference weight is coerced to 0 and so contributes to
neither weight sum, and an unknown distance band falls back to the 68.0 base.
(Totality itself is structural: every embedded function is a total Lean
function.) -/
theorem claim_C10 :
    (∀ tz : String → Option ℚ, timezone_offset_hours tz "" = 0)
      ∧ (∀ (tz : String → Option ℚ) (name : String), tz name = none →
          timezone_offset_hours tz name = 0)
      ∧ (∀ (hav : ℚ → ℚ → ℚ → ℚ → ℚ) (d : Option (ℚ × ℚ)),
          rough_travel_time_minutes hav none d = 360
            ∧ rough_travel_time_minutes hav d none = 360)
      ∧ (∀ now : ℤ, (component_freshness none now).1 = 42)
      ∧ (∀ (tags : List String) (key : String) (rest : List (String × Option ℚ)),
          preferenceFold tags ((key, none) :: rest) = preferenceFold tags rest)
      ∧ (∀ band : String, band ≠ "short" → band ≠ "medium" → band ≠ "long" →
          band ≠ "ultra_long" → distanceBandScore band = 68)
      ∧ (∀ (tm bm : ℤ) (sm : ℚ) (band : String) (nl tzd : ℚ) (tt : ℤ) (dc : ℚ) (now : ℤ)
          (key : String),
          (score_package tm bm [(key, none)] [] sm band nl none tzd tt dc now).breakdown.preference_match = 58
            ∧ (score_package tm bm [(key, none)] [] sm band nl none tzd tt dc now).breakdown.freshness = 42) := by
  refine ⟨?_, ?_, ?_, ?_, ?_, ?_, ?_⟩
  · intro tz
    simp [timezone_offset_hours]
  · intro tz name h
    unfold timezone_offset_hours
    split
    · rfl
    · rw [h]
  · intro hav d
    constructor
    · rfl
    · unfold rough_travel_time_minutes
      rcases d with _ | c
      · rfl
      · rfl
  · intro now
    rfl
  · intro tags key rest
    simp [preferenceFold]
  · intro band h1 h2 h3 h4
    unfold distanceBandScore
    rw [if_neg h1, if_neg h2, if_neg h3, if_neg h4]
  · intro tm bm sm band nl tzd tt dc now key
    constructor
    · show pyRound2 (component_preference_match [(key, none)] []).1 = 58
      have : (component_preference_match [(key, none)] []).1 = 58 := by
        unfold component_preference_match
        simp [preferenceFold]
      rw [this]
      exact IsCents.pyRound2_fix ⟨5800, by norm_num⟩
    · show pyRound2 (component_freshness none now).1 = 42
      show pyRound2 42 = 42
      exact IsCents.pyRound2_fix ⟨4200, by norm_num⟩

theorem claim_C5_witness :
    (0 ≤ (score_package 62000 0 [] ["culture"] 1 "medium" (7/10) (some 990000) 1 300
          (3/4) 1000000).breakdown.price_value
        ∧ (score_package 62000 0 [] ["culture"] 1 "medium" (7/10) (some 990000) 1 300
          (3/4) 1000000).breakdown.price_value ≤ 100)
      ∧ 0 ≤ (score_package 62000 0 [] ["culture"] 1 "medium" (7/10) (some 990000) 1 300
          (3/4) 1000000).score
      ∧ (score_package 62000 0 [] ["culture"] 1 "medium" (7/10) (some 990000) 1 300
          (3/4) 1000000).score ≤ 100 :=
  ⟨(claim_C5 62000 0 [] ["culture"] 1 "medium" (7/10) (some 990000) 1 300 (3/4) 1000000).2.1
      ((score_package 62000 0 [] ["culture"] 1 "medium" (7/10) (some 990000) 1 300
        (3/4) 1000000).breakdown.price_value) (by decide),
    (claim_C5 62000 0 [] ["culture"] 1 "medium" (7/10) (some 990000) 1 300 (3/4) 1000000).2.2.1.1,
    (claim_C5 62000 0 [] ["culture"] 1 "medium" (7/10) (some 990000) 1 300 (3/4) 1000000).2.2.1.2⟩

theorem claim_C10_witness :
    timezone_offset_hours (fun _ => none) "Mars/Olympus" = 0
      ∧ distanceBandScore "galactic" = 68 :=
  ⟨claim_C10.2.1 (fun _ => none) "Mars/Olympus" rfl,
    claim_C10.2.2.2.2.2.1 "galactic" (by decide) (by decide) (by decide) (by decide)⟩

/-! ## Direct mode (claim C4) -/

theorem filterMap_keep_sublist {α : Type} (g : String → Option α) (l : List String) :
    (l.filterMap (fun c => (g c).map (fun _ => c))).Sublist l := by
  induction l with
  | nil => simp
  | cons c rest ih =>
    rw [List.filterMap_cons]
    rcases hgc : g c with _ | v
    · simp only [hgc, Option.map_none']
      exact ih.cons c
    · simp only [hgc, Option.map_some']
      exact ih.cons₂ c

/-- C4 (amended): in direct mode the pass-through list is deduplicated with
order preserved — `_direct_airports` returns a duplicate-free,
order-preserving sublist of the normalized selected codes containing exactly
their set, and `build_destination_candidates` passes it through (capped and
restricted to airports that exist) without further filtering. No
origin-equality exclusion is performed here: a destination equal to the
origin survives (see the counterexample); the form layer rejects only the
primary destination field, not the extra-destinations list. -/
theorem claim_C4 (plan : PlanRequest) :
    (direct_airports plan).Nodup
      ∧ (direct_airports plan).Sublist
          ((plan.destinationIatas.map normalize_iata).filter (fun c => c ≠ "")
            ++ (if plan.destinationIata ≠ "" then [normalize_iata plan.destinationIata] else []))
      ∧ (∀ c, c ∈ direct_airports plan
          ↔ c ∈ (plan.destinationIatas.map normalize_iata).filter (fun c => c ≠ "")
              ++ (if plan.destinationIata ≠ "" then [normalize_iata plan.destinationIata] else []))
      ∧ ∀ (env : Env) (db : List Airport) (maxItems : ℕ),
          plan.searchMode = "direct" →
          (build_destination_candidate_codes env db plan maxItems).Sublist (direct_airports plan)
            ∧ (build_destination_candidate_codes env db plan maxItems).Nodup := by
  refine ⟨dedupFirst_nodup _ _, dedupFirst_sublist _ _, ?_, ?_⟩
  · intro c
    rw [direct_airports, mem_dedupFirst]
    simp
  · intro env db maxItems hmode
    have hsub : (build_destination_candidate_codes env db plan maxItems).Sublist
        (direct_airports plan) := by
      simp only [build_destination_candidate_codes, hmode, eq_self_iff_true, if_true]
      split
      · exact List.nil_sublist _
      · exact (filterMap_keep_sublist (fun code => (db.filter (fun a => a.iata = code)).head?)
          ((direct_airports plan).take maxItems)).trans (List.take_sublist _ _)
    exact ⟨hsub, List.Nodup.sublist hsub (dedupFirst_nodup _ _)⟩

theorem claim_C4_counterexample :
    exDirectPlan.searchMode = "direct"
      ∧ normalize_iata exDirectPlan.originIata ∈ direct_airports exDirectPlan
      ∧ normalize_iata exDirectPlan.originIata
          ∈ build_destination_candidate_codes exEnv [exJFK, exCDG] exDirectPlan 8 := by
  decide

theorem claim_C4_witness :
    exDirectPlan.searchMode = "direct"
      ∧ (direct_airports exDirectPlan).Nodup
      ∧ (build_destination_candidate_codes exEnv [exJFK, exCDG] exDirectPlan 8).Sublist
          (direct_airports exDirectPlan)
      ∧ (build_destination_candidate_codes exEnv [exJFK, exCDG] exDirectPlan 8).Nodup :=
  ⟨by decide, (claim_C4 exDirectPlan).1,
    ((claim_C4 exDirectPlan).2.2.2 exEnv [exJFK, exCDG] 8 (by decide)).1,
    ((claim_C4 exDirectPlan).2.2.2 exEnv [exJFK, exCDG] 8 (by decide)).2⟩

/-! ## Explore mode (claim C6) -/

theorem candidate_score_duration (env : Env) (name : String)
    (oc dc : Option (ℚ × ℚ)) (otz dtz : String) (md : Option ℤ) :
    (candidate_score env name oc dc otz dtz md).2.2
      = rough_travel_time_minutes env.hav oc dc := by
  simp only [candidate_score]
  split <;> rfl

theorem insertionSortB_eq_nil {α : Type} {le : α → α → Bool} {l : List α}
    (h : insertionSortB le l = []) : l = [] := by
  have hlen := (perm_insertionSortB le l).length_eq
  rw [h] at hlen
  exact List.length_eq_zero.mp hlen.symm

theorem mem_exploreRanked {env : Env} {db : List Airport} {plan : PlanRequest}
    {p : ℚ × String} :
    p ∈ exploreRanked env db plan ↔
      ∃ a ∈ (exploreQueryset db plan).take 4000, ∃ la lo,
        a.latitude = some la ∧ a.longitude = some lo
          ∧ ¬((candidate_score env a.name (exploreOriginCoords db plan) (some (la, lo))
              (exploreOriginTz db plan) a.timezone plan.maxDurationMinutes).1 < 0)
          ∧ p = ((candidate_score env a.name (exploreOriginCoords db plan) (some (la, lo))
              (exploreOriginTz db plan) a.timezone plan.maxDurationMinutes).1, a.iata) := by
  unfold exploreRanked
  rw [List.mem_filterMap]
  constructor
  · rintro ⟨a, ha, hfa⟩
    rcases hla : a.latitude with _ | la <;> rcases hlo : a.longitude with _ | lo <;>
      simp only [hla, hlo] at hfa
    · exact absurd hfa (by simp)
    · exact absurd hfa (by simp)
    · exact absurd hfa (by simp)
    · split at hfa
      · exact absurd hfa (by simp)
      · rename_i hsc
        exact ⟨a, ha, la, lo, hla, hlo, hsc, (Option.some.inj hfa).symm⟩
  · rintro ⟨a, ha, la, lo, hla, hlo, hsc, rfl⟩
    refine ⟨a, ha, ?_⟩
    simp only [hla, hlo, if_neg hsc]

/-- C6: a positive max-duration constraint that the estimated travel time
exceeds makes `_candidate_score` return the hard-reject score −9999; such a
destination is excluded from the explore-mode selection whenever any
candidate survives; if every coordinate-bearing candidate of the capped pool
is rejected, explore mode falls back to the first N airports of the filtered
pool in alphabetical IATA order; and with a positive N the result is empty
exactly when the filtered pool is empty. -/
theorem claim_C6 (env : Env) (db : List Airport) (plan : PlanRequest) (maxItems : ℕ) :
    (∀ (name : String) (oc dc : Option (ℚ × ℚ)) (otz dtz : String) (m : ℤ),
        0 < m → m < (candidate_score env name oc dc otz dtz (some m)).2.2 →
        (candidate_score env name oc dc otz dtz (some m)).1 = -9999)
      ∧ ((db.map (fun a => a.iata)).Nodup →
          ∀ a ∈ (exploreQueryset db plan).take 4000, ∀ la lo,
            a.latitude = some la → a.longitude = some lo →
            (candidate_score env a.name (exploreOriginCoords db plan) (some (la, lo))
              (exploreOriginTz db plan) a.timezone plan.maxDurationMinutes).1 < 0 →
            exploreRanked env db plan ≠ [] →
            a.iata ∉ explore_airports env db plan maxItems)
      ∧ ((∀ a ∈ (exploreQueryset db plan).take 4000, ∀ la lo,
            a.latitude = some la → a.longitude = some lo →
            (candidate_score env a.name (exploreOriginCoords db plan) (some (la, lo))
              (exploreOriginTz db plan) a.timezone plan.maxDurationMinutes).1 < 0) →
          explore_airports env db plan maxItems
            = ((insertionSortB (fun x y => strLE x.iata y.iata)
                (exploreQueryset db plan)).take maxItems).map (fun a => a.iata))
      ∧ (1 ≤ maxItems →
          (explore_airports env db plan maxItems = [] ↔ exploreQueryset db plan = [])) := by
  refine ⟨?_, ?_, ?_, ?_⟩
  · intro name oc dc otz dtz m hm hd
    rw [candidate_score_duration] at hd
    have hb : ((m != 0) && decide (m < rough_travel_time_minutes env.hav oc dc)) = true := by
      rw [Bool.and_eq_true, bne_iff_ne, decide_eq_true_eq]
      exact ⟨by omega, hd⟩
    simp only [candidate_score, hb, if_true]
  · intro hnd a ha la lo hla hlo hsc hne hmem
    unfold explore_airports at hmem
    rw [if_neg hne] at hmem
    obtain ⟨p, hp, hpe⟩ := List.mem_map.mp hmem
    have hp2 : p ∈ exploreRanked env db plan :=
      mem_insertionSortB.mp (List.mem_of_mem_take hp)
    obtain ⟨b, hb, lb, lob, hlb, hlob, hscb, hpe2⟩ := mem_exploreRanked.mp hp2
    have hadb : a ∈ db :=
      (List.mem_filter.mp (List.mem_of_mem_take ha)).1
    have hbdb : b ∈ db :=
      (List.mem_filter.mp (List.mem_of_mem_take hb)).1
    have hiata : b.iata = a.iata := by
      rw [hpe2] at hpe
      exact hpe
    have hba : b = a := List.inj_on_of_nodup_map hnd hbdb hadb hiata
    subst hba
    rw [hla] at hlb
    rw [hlo] at hlob
    rw [Option.some.inj hlb, Option.some.inj hlob] at hsc
    exact hscb hsc
  · intro hall
    have hranked : exploreRanked env db plan = [] := by
      rw [List.eq_nil_iff_forall_not_mem]
      intro p hp
      obtain ⟨b, hb, lb, lob, hlb, hlob, hscb, _⟩ := mem_exploreRanked.mp hp
      exact hscb (hall b hb lb lob hlb hlob)
    unfold explore_airports
    rw [if_pos hranked]
  · intro hN
    constructor
    · intro he
      unfold explore_airports at he
      by_cases hr : exploreRanked env db plan = []
      · rw [if_pos hr, List.map_eq_nil_iff, List.take_eq_nil_iff] at he
        rcases he with h0 | hs
        · omega
        · exact insertionSortB_eq_nil hs
      · rw [if_neg hr, List.map_eq_nil_iff, List.take_eq_nil_iff] at he
        rcases he with h0 | hs
        · omega
        · exact absurd (insertionSortB_eq_nil hs) hr
    · intro hq
      have hranked : exploreRanked env db plan = [] := by
        unfold exploreRanked
        rw [hq]
        rfl
      unfold explore_airports
      rw [if_pos hranked, hq]
      simp [insertionSortB]

theorem claim_C6_witness :
    ((candidate_score exExploreEnv exFarAirport.name
        (exploreOriginCoords [exJFK, exFarAirport, exNearAirport] exExplorePlan)
        (some (99, 0)) (exploreOriginTz [exJFK, exFarAirport, exNearAirport] exExplorePlan)
        exFarAirport.timezone (some 200)).1 = -9999)
      ∧ exFarAirport.iata
          ∉ explore_airports exExploreEnv [exJFK, exFarAirport, exNearAirport] exExplorePlan 8
      ∧ explore_airports exExploreEnv [exJFK, exFarAirport, exNearAirport] exExplorePlanStrict 8
          = ((insertionSortB (fun x y => strLE x.iata y.iata)
              (exploreQueryset [exJFK, exFarAirport, exNearAirport] exExplorePlanStrict)).take 8).map
            (fun a => a.iata)
      ∧ (explore_airports exExploreEnv [exJFK, exFarAirport, exNearAirport] exExplorePlan 8 = []
          ↔ exploreQueryset [exJFK, exFarAirport, exNearAirport] exExplorePlan = []) :=
  ⟨(claim_C6 exExploreEnv [exJFK, exFarAirport, exNearAirport] exExplorePlan 8).1
      exFarAirport.name
      (exploreOriginCoords [exJFK, exFarAirport, exNearAirport] exExplorePlan)
      (some (99, 0)) (exploreOriginTz [exJFK, exFarAirport, exNearAirport] exExplorePlan)
      exFarAirport.timezone 200 (by decide) (by decide),
    (claim_C6 exExploreEnv [exJFK, exFarAirport, exNearAirport] exExplorePlan 8).2.1
      (by decide) exFarAirport (by decide) 99 0 (by decide) (by decide) (by decide) (by decide),
    (claim_C6 exExploreEnv [exJFK, exFarAirport, exNearAirport] exExplorePlanStrict 8).2.2.1
      (by
        intro a ha la lo hla hlo
        have hpool : (exploreQueryset [exJFK, exFarAirport, exNearAirport]
            exExplorePlanStrict).take 4000 = [exFarAirport, exNearAirport] := by decide
        rw [hpool] at ha
        have ha2 : a = exFarAirport ∨ a = exNearAirport := by simpa using ha
        rcases ha2 with rfl | rfl
        · have hla' : la = 99 := (Option.some.inj (hla : (some (99 : ℚ) : Option ℚ) = some la)).symm
          have hlo' : lo = 0 := (Option.some.inj (hlo : (some (0 : ℚ) : Option ℚ) = some lo)).symm
          subst hla'
          subst hlo'
          decide
        · have hla' : la = 10 := (Option.some.inj (hla : (some (10 : ℚ) : Option ℚ) = some la)).symm
          have hlo' : lo = 10 := (Option.some.inj (hlo : (some (10 : ℚ) : Option ℚ) = some lo)).symm
          subst hla'
          subst hlo'
          decide),
    (claim_C6 exExploreEnv [exJFK, exFarAirport, exNearAirport] exExplorePlan 8).2.2.2
      (by decide)⟩

end TripPlanner
